import Mathlib

/-
  Verification development for the svg-to-png rasterizer.

  The Python sources are embedded shallowly: Python floats are modelled as
  exact rationals (so nonfinite values, float rounding and overflow are
  outside the model), Python strings as Lean strings processed as character
  lists, Python dicts as insertion-ordered association lists, and mutation
  as explicit state passing.  A raised-and-uncaught Python exception is
  modelled by a Bool success flag (or an Except value) carried alongside the
  partially mutated state.  Transcendental functions (cos, sin, tan and the
  radian/degree conversions), which have no exact rational embedding, are
  parameters of the embedding; every theorem below is proved for all
  choices of these parameters or at inputs that do not reach them.
  Division by zero in the model follows the Lean convention (x / 0 = 0);
  the embedded code only divides where the source guards the denominator
  or where a zero denominator would raise in Python on inputs outside the
  scope of the theorems below.
-/

namespace SvgSpec

/-! ## Python primitives -/

/-- Python int() applied to a float: truncation toward zero. -/
def pyInt (q : ℚ) : ℤ := if 0 ≤ q then ⌊q⌋ else ⌈q⌉

/-- Python round() to an integer: round half to even. -/
def pyRound (q : ℚ) : ℤ :=
  let n := ⌊q⌋
  let f := q - (n : ℚ)
  if f < 1/2 then n
  else if 1/2 < f then n + 1
  else if n % 2 = 0 then n else n + 1

def isWsC (c : Char) : Bool := c.isWhitespace

/-- Python str.lstrip() on a character list. -/
def lstripC (cs : List Char) : List Char := cs.dropWhile isWsC

/-- Python str.rstrip() on a character list. -/
def rstripC (cs : List Char) : List Char := (cs.reverse.dropWhile isWsC).reverse

/-- Python str.strip() on a character list. -/
def stripC (cs : List Char) : List Char := rstripC (lstripC cs)

/-- Python str.lower() (ASCII is all the sources use). -/
def lowerC (cs : List Char) : List Char := cs.map Char.toLower

/-- Does the second list start with the first one? -/
def startsC : List Char → List Char → Bool
  | [], _ => true
  | _ :: _, [] => false
  | p :: ps, c :: cs => p = c && startsC ps cs

/-- Does the second list end with the first one? -/
def endsC (p cs : List Char) : Bool := startsC p.reverse cs.reverse

/-- Python substring containment (the in operator on strings). -/
def hasSubC (p : List Char) : List Char → Bool
  | [] => startsC p []
  | c :: cs => startsC p (c :: cs) || hasSubC p cs

/-- Maximal runs of characters not satisfying isSep, empty runs dropped
    (Python re.split on a separator-run pattern followed by dropping
    falsy entries, and also Python str.split() for whitespace). -/
def splitRunsC (isSep : Char → Bool) (cs : List Char) : List (List Char) :=
  (cs.foldr
    (fun c acc =>
      if isSep c then [] :: acc
      else
        match acc with
        | [] => [[c]]
        | g :: gs => (c :: g) :: gs)
    []).filter (fun g => !g.isEmpty)

def splitWsC (cs : List Char) : List (List Char) := splitRunsC isWsC cs

def splitCommaWsC (cs : List Char) : List (List Char) :=
  splitRunsC (fun c => c = ',' || isWsC c) cs

/-- Python str.split(",") which keeps empty fields. -/
def splitOnCommaC (cs : List Char) : List (List Char) :=
  cs.foldr
    (fun c acc =>
      if c = ',' then [] :: acc
      else
        match acc with
        | [] => [[c]]
        | g :: gs => (c :: g) :: gs)
    [[]]

/-- Python str.replace for a non-empty pattern (auxiliary, fuelled by the
    length of the scanned list; each step consumes at least one char). -/
def replaceAuxC (old new : List Char) : ℕ → List Char → List Char
  | 0, cs => cs
  | _ + 1, [] => []
  | f + 1, c :: cs =>
    if startsC old (c :: cs) then new ++ replaceAuxC old new f ((c :: cs).drop old.length)
    else c :: replaceAuxC old new f cs

/-- Python str.replace (the sources only call it with a non-empty pattern). -/
def replaceAllC (old new cs : List Char) : List Char :=
  if old.isEmpty then cs else replaceAuxC old new cs.length cs

def strOf (cs : List Char) : String := ⟨cs⟩

/-! ## Numeric literal parsing -/

def digitVal (c : Char) : ℤ := (c.toNat : ℤ) - 48

def digitsVal (ds : List Char) : ℤ := ds.foldl (fun a c => a * 10 + digitVal c) 0

/-- Value of a single hexadecimal digit, if it is one. -/
def hexDigitVal (c : Char) : Option ℤ :=
  if c.isDigit then some (digitVal c)
  else if 97 ≤ c.toNat ∧ c.toNat ≤ 102 then some ((c.toNat : ℤ) - 87)
  else if 65 ≤ c.toNat ∧ c.toNat ≤ 70 then some ((c.toNat : ℤ) - 55)
  else none

def hexListVal : List Char → Option ℤ
  | [] => some 0
  | c :: cs =>
    match hexDigitVal c, hexListVal cs with
    | some v, some r => some (v * 16 ^ cs.length + r)
    | _, _ => none

/-- Python int(s, 16): optional sign then at least one hex digit
    (surrounding whitespace or underscores never occur at the call sites). -/
def pyIntHex (cs : List Char) : Option ℤ :=
  match cs with
  | '+' :: rest => if rest.isEmpty then none else hexListVal rest
  | '-' :: rest => if rest.isEmpty then none else (hexListVal rest).map Neg.neg
  | [] => none
  | _ => hexListVal cs

/-- Optional leading sign; returns the sign and the remaining characters. -/
def parseSignC : List Char → ℚ × List Char
  | '+' :: rest => (1, rest)
  | '-' :: rest => (-1, rest)
  | cs => (1, cs)

def fracQ (fs : List Char) : ℚ := (digitsVal fs : ℚ) / 10 ^ fs.length

/-- Mantissa of a float literal per the pattern d+(.d*)? or .d+ . -/
def parseMantissaC (cs : List Char) : Option (ℚ × List Char) :=
  let ds := cs.takeWhile Char.isDigit
  let r1 := cs.dropWhile Char.isDigit
  if !ds.isEmpty then
    match r1 with
    | '.' :: r2 =>
      let fs := r2.takeWhile Char.isDigit
      some ((digitsVal ds : ℚ) + fracQ fs, r2.dropWhile Char.isDigit)
    | _ => some ((digitsVal ds : ℚ), r1)
  else
    match cs with
    | '.' :: r2 =>
      let fs := r2.takeWhile Char.isDigit
      if fs.isEmpty then none else some (fracQ fs, r2.dropWhile Char.isDigit)
    | _ => none

/-- Optional exponent ([eE][+-]?d+); if incomplete, nothing is consumed. -/
def parseExpoC (cs : List Char) : ℚ × List Char :=
  match cs with
  | e :: r1 =>
    if e = 'e' || e = 'E' then
      let (sg, r2) := parseSignC r1
      let ds := r2.takeWhile Char.isDigit
      if ds.isEmpty then (1, cs)
      else ((10 : ℚ) ^ ((if sg < 0 then -1 else 1) * digitsVal ds), r2.dropWhile Char.isDigit)
    else (1, cs)
  | [] => (1, cs)

/-- Sign, mantissa and optional exponent; returns the value and the rest. -/
def parseNumCore (cs : List Char) : Option (ℚ × List Char) :=
  let (sg, r1) := parseSignC cs
  match parseMantissaC r1 with
  | none => none
  | some (m, r2) =>
    let (ex, r3) := parseExpoC r2
    some (sg * m * ex, r3)

/-- Python float(s) on the finite decimal forms the sources produce
    (inf, nan and underscore separators are outside the rational model). -/
def pyFloatC (cs : List Char) : Option ℚ :=
  match parseNumCore (stripC cs) with
  | some (v, []) => some v
  | _ => none

def pyFloatS (s : String) : Option ℚ := pyFloatC s.toList

/-! ## geometry.py -/

def INCHES_TO_PX : ℚ := 96
def CM_TO_PX : ℚ := INCHES_TO_PX / (254 / 100)
def MM_TO_PX : ℚ := CM_TO_PX / 10
def PT_TO_PX : ℚ := INCHES_TO_PX / 72
def PC_TO_PX : ℚ := PT_TO_PX * 12

/-- Transcendental operations of the Python math module, which have no
    exact rational embedding; the development is parametric in them. -/
structure PyMath where
  radians : ℚ → ℚ
  degrees : ℚ → ℚ
  cos : ℚ → ℚ
  sin : ℚ → ℚ
  tan : ℚ → ℚ

/-- parse_number_with_unit: anchored match of
    sign? (d+(.d*)? | .d+) expo? ws* unit([a-zA-Z%]*) against the stripped
    value, falling back to float(value), then to (0, ""). -/
def parse_number_with_unit (s : String) : ℚ × String :=
  let cs := s.toList
  if cs.isEmpty then (0, "")
  else
    let v := stripC cs
    if v.isEmpty then (0, "")
    else
      match parseNumCore v with
      | some (num, r2) =>
        let r3 := r2.dropWhile isWsC
        let unit := r3.takeWhile (fun c => c.isAlpha || c = '%')
        let rest := r3.dropWhile (fun c => c.isAlpha || c = '%')
        if rest.isEmpty then (num, strOf unit)
        else
          match pyFloatC v with
          | some x => (x, "")
          | none => (0, "")
      | none =>
        match pyFloatC v with
        | some x => (x, "")
        | none => (0, "")

/-- normalize_unit.  The fuel bounds the ex-to-em rewriting recursion of the
    source (one step suffices on every input the recursion terminates on). -/
def normalize_unit (pm : PyMath) : ℕ → String → String → Option ℚ → Option ℚ →
    Option ℚ → Option ℚ → ℚ
  | 0, _, _, _, _, _, _ => 0
  | fuel + 1, value, unit_type, viewport_width, viewport_height, font_size, parent_font_size =>
    let (num_value, unit0) := parse_number_with_unit value
    if unit0 = "" then
      if unit_type = "angle" then num_value else num_value
    else
      let unit := strOf (lowerC unit0.toList)
      if unit = "px" then num_value
      else if unit = "pt" then num_value * PT_TO_PX
      else if unit = "pc" then num_value * PC_TO_PX
      else if unit = "in" then num_value * INCHES_TO_PX
      else if unit = "cm" then num_value * CM_TO_PX
      else if unit = "mm" then num_value * MM_TO_PX
      else if unit = "em" then
        match font_size with
        | some fs => num_value * fs
        | none =>
          match parent_font_size with
          | some pfs => num_value * pfs
          | none => num_value * 16
      else if unit = "ex" then
        let em_value := normalize_unit pm fuel
          (strOf (replaceAllC "ex".toList "em".toList value.toList)) unit_type
          viewport_width viewport_height font_size parent_font_size
        em_value * (1/2)
      else if unit = "%" then
        if unit_type = "angle" then (num_value / 100) * 360
        else
          match viewport_width, viewport_height with
          | some vw, some vh => (num_value / 100) * ((vw + vh) / 2)
          | _, _ => num_value
      else if unit = "deg" then num_value
      else if unit = "rad" then pm.degrees num_value
      else if unit = "grad" then num_value * (9/10)
      else if unit = "turn" then num_value * 360
      else num_value

def mapRange (x frommin frommax tomin tomax : ℚ) : ℚ :=
  ((x - frommin) / (frommax - frommin)) * (tomax - tomin) + tomin

def clamp (x minx maxx : ℚ) : ℚ := max (min x maxx) minx

/-! ## parser.py -/

/-- Python dict as an insertion-ordered association list. -/
abbrev AttrsD := List (String × String)

def dictGet (d : AttrsD) (k : String) : Option String :=
  (d.find? (fun e => e.1 = k)).map (fun e => e.2)

def dictSet : AttrsD → String → String → AttrsD
  | [], k, v => [(k, v)]
  | (k0, v0) :: rest, k, v =>
    if k0 = k then (k0, v) :: rest else (k0, v0) :: dictSet rest k v

/-- is_self_terminating: the fragment, right-stripped, ends with a slash
    followed by a closing angle bracket. -/
def is_self_terminating (svg_value : String) : Bool :=
  endsC "/>".toList (rstripC svg_value.toList)

/-- is_terminator: the fragment, stripped, starts with an opening angle
    bracket followed by a slash. -/
def is_terminator (svg_value : String) : Bool :=
  startsC "</".toList (stripC svg_value.toList)

/-- get_tag: strip the bracket decorations, then take the first word
    matching the pattern ws* [/!?]* ws* word-chars. -/
def get_tag (s : String) : String :=
  let content := stripC s.toList
  let c1 :=
    if startsC "</".toList content then content.drop 2
    else if startsC "<".toList content then content.drop 1
    else content
  let c2 := if endsC ">".toList c1 then c1.dropLast else c1
  let c3 := if endsC "/".toList c2 then c2.dropLast else c2
  let r1 := c3.dropWhile isWsC
  let r2 := r1.dropWhile (fun c => c = '/' || c = '!' || c = '?')
  let r3 := r2.dropWhile isWsC
  strOf (r3.takeWhile (fun c => c.isAlphanum || c = '_'))

/-- State of the four-state attribute scanner. -/
structure AttrScan where
  state : ℕ
  accRev : List Char
  key : String
  attrs : AttrsD

def quoteChar : Char := Char.ofNat 39

/-- One step of the attribute scanner (accumulate-key, await-quote,
    accumulate-value, escaped-char). -/
def attrStep (st : AttrScan) (c : Char) : AttrScan :=
  if st.state = 0 then
    if c = '=' then
      { st with key := strOf (stripC st.accRev.reverse), accRev := [], state := 1 }
    else if c = ' ' then st
    else { st with accRev := c :: st.accRev }
  else if st.state = 1 then
    if c = '"' then { st with state := 2 }
    else if c = quoteChar then { st with state := 2 }
    else st
  else if st.state = 2 then
    if c = '\\' then { st with state := 3 }
    else if c = '"' || c = quoteChar then
      { st with attrs := dictSet st.attrs st.key (strOf st.accRev.reverse),
                accRev := [], key := "", state := 0 }
    else { st with accRev := c :: st.accRev }
  else { st with accRev := c :: st.accRev, state := 2 }

/-- parse_attributes: split off the tag word, then run the scanner over the
    rest; a trailing unterminated value is kept if the key is new or empty. -/
def parse_attributes (element : String) : AttrsD :=
  let content := stripC element.toList
  if startsC "</".toList content then []
  else
    let c1 := if startsC "<".toList content then content.drop 1 else content
    let c2 := if endsC ">".toList c1 then c1.dropLast else c1
    let c3 := if endsC "/".toList c2 then rstripC c2.dropLast else c2
    let afterws := c3.dropWhile isWsC
    let rest0 := (afterws.dropWhile (fun c => !isWsC c)).dropWhile isWsC
    if rest0.isEmpty then []
    else
      let fin := rest0.foldl attrStep ⟨0, [], "", []⟩
      if fin.key ≠ "" ∧ (dictGet fin.attrs fin.key = none ∨ dictGet fin.attrs fin.key = some "") then
        if fin.accRev ≠ [] then dictSet fin.attrs fin.key (strOf fin.accRev.reverse)
        else fin.attrs
      else fin.attrs

/-- Parsed document node: tag, attribute dict, children in document order.
    The parent back-reference of the source is represented by passing the
    ancestor attribute dictionaries alongside a node (NodeLoc below). -/
inductive NodeT where
  | mk (tag : String) (attrs : AttrsD) (children : List NodeT)

def NodeT.tag : NodeT → String
  | .mk t _ _ => t

def NodeT.attrs : NodeT → AttrsD
  | .mk _ a _ => a

def NodeT.children : NodeT → List NodeT
  | .mk _ _ cs => cs

/-- Node built from a raw markup fragment (Node.__init__). -/
def mkNodeS (element : String) : NodeT :=
  .mk (get_tag element) (parse_attributes element) []

def compare_tag (n : NodeT) (element : String) : Bool :=
  n.tag = get_tag element

mutual

def countNodes : NodeT → ℕ
  | .mk _ _ cs => 1 + countNodesL cs

def countNodesL : List NodeT → ℕ
  | [] => 0
  | n :: ns => countNodes n + countNodesL ns

end

/-- A node together with the attribute dictionaries of its ancestors,
    nearest first (the parent chain of the source). -/
structure NodeLoc where
  attrs : AttrsD
  ancestors : List AttrsD

def INHERITED_ATTRS : List String :=
  ["fill", "stroke", "stroke-width", "stroke-linecap", "stroke-linejoin",
   "stroke-miterlimit", "stroke-dasharray", "stroke-dashoffset",
   "opacity", "fill-opacity", "stroke-opacity",
   "font-family", "font-size", "font-weight", "font-style",
   "text-anchor", "color", "visibility", "display",
   "clip-path", "mask", "filter"]

/-- Lookup through the merged inherited dictionary: own attributes win,
    then the nearest ancestor defining an inheritable attribute. -/
def inheritedLookup (name : String) (ancs : List AttrsD) : Option String :=
  if INHERITED_ATTRS.contains name then ancs.findSome? (fun a => dictGet a name)
  else none

/-- Node.get_attribute. -/
def get_attribute (n : NodeLoc) (name : String) (dflt : Option String)
    (use_inheritance : Bool) : Option String :=
  if use_inheritance then
    ((dictGet n.attrs name).orElse (fun _ => inheritedLookup name n.ancestors)).orElse
      (fun _ => dflt)
  else (dictGet n.attrs name).orElse (fun _ => dflt)

/-! ## attributes.py -/

def SVG_DEFAULTS : AttrsD :=
  [("fill", "black"), ("stroke", "none"), ("stroke-width", "1"),
   ("stroke-linecap", "butt"), ("stroke-linejoin", "miter"),
   ("stroke-miterlimit", "4"), ("stroke-dasharray", "none"),
   ("stroke-dashoffset", "0"), ("opacity", "1"), ("fill-opacity", "1"),
   ("stroke-opacity", "1"), ("fill-rule", "nonzero"), ("clip-rule", "nonzero"),
   ("visibility", "visible"), ("display", "inline"), ("color", "black"),
   ("font-family", "serif"), ("font-size", "12"), ("font-weight", "normal"),
   ("font-style", "normal"), ("text-anchor", "start"),
   ("preserveAspectRatio", "xMidYMid meet")]

def get_attribute_with_default (n : NodeLoc) (attr_name : String)
    (use_inheritance : Bool) : Option String :=
  (get_attribute n attr_name none use_inheritance).orElse
    (fun _ => dictGet SVG_DEFAULTS attr_name)

/-- resolve_color_value; returns none exactly when the source returns the
    Python None object (empty input value). -/
def resolve_color_value (value : String) (node : Option NodeLoc) : Option String :=
  if value = "" then none
  else
    let v := strOf (lowerC (stripC value.toList))
    if v = "none" then some "none"
    else if v = "currentcolor" then
      match node with
      | some n => some ((get_attribute n "color" (some "black") true).getD "black")
      | none => some "black"
    else some v

/-! ## colors.py -/

def NAMED_COLORS : List (String × (ℤ × ℤ × ℤ)) :=
  [("aliceblue", (240, 248, 255)), ("antiquewhite", (250, 235, 215)),
   ("aqua", (0, 255, 255)), ("aquamarine", (127, 255, 212)),
   ("azure", (240, 255, 255)), ("beige", (245, 245, 220)),
   ("bisque", (255, 228, 196)), ("black", (0, 0, 0)),
   ("blanchedalmond", (255, 235, 205)), ("blue", (0, 0, 255)),
   ("blueviolet", (138, 43, 226)), ("brown", (165, 42, 42)),
   ("burlywood", (222, 184, 135)), ("cadetblue", (95, 158, 160)),
   ("chartreuse", (127, 255, 0)), ("chocolate", (210, 105, 30)),
   ("coral", (255, 127, 80)), ("cornflowerblue", (100, 149, 237)),
   ("cornsilk", (255, 248, 220)), ("crimson", (220, 20, 60)),
   ("cyan", (0, 255, 255)), ("darkblue", (0, 0, 139)),
   ("darkcyan", (0, 139, 139)), ("darkgoldenrod", (184, 134, 11)),
   ("darkgray", (169, 169, 169)), ("darkgreen", (0, 100, 0)),
   ("darkgrey", (169, 169, 169)), ("darkkhaki", (189, 183, 107)),
   ("darkmagenta", (139, 0, 139)), ("darkolivegreen", (85, 107, 47)),
   ("darkorange", (255, 140, 0)), ("darkorchid", (153, 50, 204)),
   ("darkred", (139, 0, 0)), ("darksalmon", (233, 150, 122)),
   ("darkseagreen", (143, 188, 143)), ("darkslateblue", (72, 61, 139)),
   ("darkslategray", (47, 79, 79)), ("darkslategrey", (47, 79, 79)),
   ("darkturquoise", (0, 206, 209)), ("darkviolet", (148, 0, 211)),
   ("deeppink", (255, 20, 147)), ("deepskyblue", (0, 191, 255)),
   ("dimgray", (105, 105, 105)), ("dimgrey", (105, 105, 105)),
   ("dodgerblue", (30, 144, 255)), ("firebrick", (178, 34, 34)),
   ("floralwhite", (255, 250, 240)), ("forestgreen", (34, 139, 34)),
   ("fuchsia", (255, 0, 255)), ("gainsboro", (220, 220, 220)),
   ("ghostwhite", (248, 248, 255)), ("gold", (255, 215, 0)),
   ("goldenrod", (218, 165, 32)), ("gray", (128, 128, 128)),
   ("green", (0, 128, 0)), ("greenyellow", (173, 255, 47)),
   ("grey", (128, 128, 128)), ("honeydew", (240, 255, 240)),
   ("hotpink", (255, 105, 180)), ("indianred", (205, 92, 92)),
   ("indigo", (75, 0, 130)), ("ivory", (255, 255, 240)),
   ("khaki", (240, 230, 140)), ("lavender", (230, 230, 250)),
   ("lavenderblush", (255, 240, 245)), ("lawngreen", (124, 252, 0)),
   ("lemonchiffon", (255, 250, 205)), ("lightblue", (173, 216, 230)),
   ("lightcoral", (240, 128, 128)), ("lightcyan", (224, 255, 255)),
   ("lightgoldenrodyellow", (250, 250, 210)), ("lightgray", (211, 211, 211)),
   ("lightgreen", (144, 238, 144)), ("lightgrey", (211, 211, 211)),
   ("lightpink", (255, 182, 193)), ("lightsalmon", (255, 160, 122)),
   ("lightseagreen", (32, 178, 170)), ("lightskyblue", (135, 206, 250)),
   ("lightslategray", (119, 136, 153)), ("lightslategrey", (119, 136, 153)),
   ("lightsteelblue", (176, 196, 222)), ("lightyellow", (255, 255, 224)),
   ("lime", (0, 255, 0)), ("limegreen", (50, 205, 50)),
   ("linen", (250, 240, 230)), ("magenta", (255, 0, 255)),
   ("maroon", (128, 0, 0)), ("mediumaquamarine", (102, 205, 170)),
   ("mediumblue", (0, 0, 205)), ("mediumorchid", (186, 85, 211)),
   ("mediumpurple", (147, 112, 219)), ("mediumseagreen", (60, 179, 113)),
   ("mediumslateblue", (123, 104, 238)), ("mediumspringgreen", (0, 250, 154)),
   ("mediumturquoise", (72, 209, 204)), ("mediumvioletred", (199, 21, 133)),
   ("midnightblue", (25, 25, 112)), ("mintcream", (245, 255, 250)),
   ("mistyrose", (255, 228, 225)), ("moccasin", (255, 228, 181)),
   ("navajowhite", (255, 222, 173)), ("navy", (0, 0, 128)),
   ("oldlace", (253, 245, 230)), ("olive", (128, 128, 0)),
   ("olivedrab", (107, 142, 35)), ("orange", (255, 165, 0)),
   ("orangered", (255, 69, 0)), ("orchid", (218, 112, 214)),
   ("palegoldenrod", (238, 232, 170)), ("palegreen", (152, 251, 152)),
   ("paleturquoise", (175, 238, 238)), ("palevioletred", (219, 112, 147)),
   ("papayawhip", (255, 239, 213)), ("peachpuff", (255, 218, 185)),
   ("peru", (205, 133, 63)), ("pink", (255, 192, 203)),
   ("plum", (221, 160, 221)), ("powderblue", (176, 224, 230)),
   ("purple", (128, 0, 128)), ("red", (255, 0, 0)),
   ("rosybrown", (188, 143, 143)), ("royalblue", (65, 105, 225)),
   ("saddlebrown", (139, 69, 19)), ("salmon", (250, 128, 114)),
   ("sandybrown", (244, 164, 96)), ("seagreen", (46, 139, 87)),
   ("seashell", (255, 245, 238)), ("sienna", (160, 82, 45)),
   ("silver", (192, 192, 192)), ("skyblue", (135, 206, 235)),
   ("slateblue", (106, 90, 205)), ("slategray", (119, 128, 144)),
   ("slategrey", (119, 128, 144)), ("snow", (255, 250, 250)),
   ("springgreen", (0, 255, 127)), ("steelblue", (70, 130, 180)),
   ("tan", (210, 180, 140)), ("teal", (0, 128, 128)),
   ("thistle", (216, 191, 216)), ("tomato", (255, 99, 71)),
   ("turquoise", (64, 224, 208)), ("violet", (238, 130, 238)),
   ("wheat", (245, 222, 179)), ("white", (255, 255, 255)),
   ("whitesmoke", (245, 245, 245)), ("yellow", (255, 255, 0)),
   ("yellowgreen", (154, 205, 50))]

def lookupNamed (c : String) : Option (ℤ × ℤ × ℤ) :=
  (NAMED_COLORS.find? (fun e => e.1 = c)).map (fun e => e.2)

/-- parse_hex_color.  A length of 3, 6 or 8 requires every consumed slice to
    parse as a hexadecimal int; a failing slice is the uncaught ValueError of
    the source, modelled as an Except error.  Other lengths return black. -/
def parse_hex_color (hex_str : String) : Except Unit (ℤ × ℤ × ℤ) :=
  let h := (stripC hex_str.toList).dropWhile (fun c => c = '#')
  if h.length = 3 then
    match hexDigitVal (h.getD 0 ' '), hexDigitVal (h.getD 1 ' '), hexDigitVal (h.getD 2 ' ') with
    | some r, some g, some b => .ok (r * 17, g * 17, b * 17)
    | _, _, _ => .error ()
  else if h.length = 6 ∨ h.length = 8 then
    match pyIntHex (h.take 2), pyIntHex ((h.drop 2).take 2), pyIntHex ((h.drop 4).take 2) with
    | some r, some g, some b => .ok (r, g, b)
    | _, _, _ => .error ()
  else .ok (0, 0, 0)

def clampChannel (v : ℤ) : ℤ := max 0 (min 255 v)

/-- The re.match of parse_rgb_color: the anchored pattern rgba?(content)
    with a non-empty content and a closing parenthesis, at the start of the
    stripped, lowered string; returns group 1 (the content between the
    parentheses), or none exactly when the source's match object is None. -/
def rgbMatchContent (rgb_str : String) : Option (List Char) :=
  let v := lowerC (stripC rgb_str.toList)
  if !startsC "rgb".toList v then none
  else
    let r0 := v.drop 3
    let r1 := if startsC "a".toList r0 then r0.drop 1 else r0
    match r1 with
    | '(' :: r2 =>
      let content := r2.takeWhile (fun c => c ≠ ')')
      let after := r2.dropWhile (fun c => c ≠ ')')
      if content.isEmpty ∨ after.isEmpty then none else some content
    | _ => none

/-- parse_rgb_color: anchored match of rgba?(content) at the start of the
    stripped, lowered string; three comma fields parsed as floats then
    truncated and clamped; any failure yields black. -/
def parse_rgb_color (rgb_str : String) : ℤ × ℤ × ℤ :=
  match rgbMatchContent rgb_str with
  | none => (0, 0, 0)
  | some content =>
    let values := splitOnCommaC content
    if values.length < 3 then (0, 0, 0)
    else
      match pyFloatC (stripC (values.getD 0 [])),
            pyFloatC (stripC (values.getD 1 [])),
            pyFloatC (stripC (values.getD 2 [])) with
      | some r, some g, some b =>
        (clampChannel (pyInt r), clampChannel (pyInt g), clampChannel (pyInt b))
      | _, _, _ => (0, 0, 0)

/-- parse_color.  Returns ok none for "do not paint"; an error models the
    uncaught exceptions of the source (invalid hex digits, and the
    whitespace-only input that makes resolve_color_value return None). -/
def parse_color (color_str : String) (node : Option NodeLoc) :
    Except Unit (Option (ℤ × ℤ × ℤ)) :=
  if color_str = "" then .ok none
  else
    let s1 := strOf (stripC color_str.toList)
    match resolve_color_value s1 node with
    | none => .error ()
    | some r =>
      if r = "none" then .ok none
      else
        let c := strOf (lowerC r.toList)
        match lookupNamed c with
        | some rgb => .ok (some rgb)
        | none =>
          if startsC "#".toList c.toList then (parse_hex_color c).map some
          else if startsC "rgb".toList c.toList then .ok (some (parse_rgb_color c))
          else .ok (some (0, 0, 0))

abbrev RGBA := ℤ × ℤ × ℤ × ℤ

def get_color_with_opacity (color : Option (ℤ × ℤ × ℤ)) (opacity : ℚ) : RGBA :=
  match color with
  | none => (0, 0, 0, 0)
  | some (r, g, b) => (r, g, b, pyInt (opacity * 255))

/-- blend_colors: the over operator with integer truncation per channel. -/
def blend_colors (foreground background : RGBA) : RGBA :=
  let (fgR, fgG, fgB, fgA) := foreground
  let (bgR, bgG, bgB, bgA) := background
  let fa : ℚ := (fgA : ℚ) / 255
  let ba : ℚ := (bgA : ℚ) / 255
  let outA := fa + ba * (1 - fa)
  if outA = 0 then (0, 0, 0, 0)
  else if 1 ≤ ba then
    (pyInt ((fgR : ℚ) * fa + (bgR : ℚ) * (1 - fa)),
     pyInt ((fgG : ℚ) * fa + (bgG : ℚ) * (1 - fa)),
     pyInt ((fgB : ℚ) * fa + (bgB : ℚ) * (1 - fa)),
     pyInt (outA * 255))
  else
    (pyInt (((fgR : ℚ) * fa + (bgR : ℚ) * ba * (1 - fa)) / outA),
     pyInt (((fgG : ℚ) * fa + (bgG : ℚ) * ba * (1 - fa)) / outA),
     pyInt (((fgB : ℚ) * fa + (bgB : ℚ) * ba * (1 - fa)) / outA),
     pyInt (outA * 255))

/-- Opacity string handling shared by get_node_color: falsy or unparseable
    strings give the fallback, parsed values are clamped to the unit range. -/
def parseOpacity (o : Option String) : ℚ :=
  match o with
  | some v =>
    if v ≠ "" then
      match pyFloatS v with
      | some q => max 0 (min 1 q)
      | none => 1
    else 1
  | none => 1

/-- get_node_color: resolve the color attribute (with defaults), parse it,
    then apply the combined generic and attribute-specific opacities. -/
def get_node_color (node : NodeLoc) (color_attr opacity_attr : String) :
    Except Unit RGBA :=
  let color_str :=
    match get_attribute_with_default node color_attr true with
    | none => if color_attr = "fill" then "black" else "none"
    | some v => v
  match parse_color color_str (some node) with
  | .error e => .error e
  | .ok color =>
    let opacity := parseOpacity (get_attribute_with_default node opacity_attr true)
    let specific := get_attribute_with_default node (color_attr ++ "-opacity") true
    let opacity2 :=
      match specific with
      | some v =>
        if v ≠ "" then
          match pyFloatS v with
          | some q => opacity * max 0 (min 1 q)
          | none => opacity
        else opacity
      | none => opacity
    .ok (get_color_with_opacity color opacity2)

/-! ## drawing_context.py: TransformMatrix -/

/-- Affine transform (a, b, c, d, e, f) mapping (x, y) to
    (a x + c y + e, b x + d y + f). -/
structure TransformMatrix where
  a : ℚ
  b : ℚ
  c : ℚ
  d : ℚ
  e : ℚ
  f : ℚ
deriving DecidableEq

namespace TransformMatrix

def identityM : TransformMatrix := ⟨1, 0, 0, 1, 0, 0⟩

def translateM (tx ty : ℚ) : TransformMatrix := ⟨1, 0, 0, 1, tx, ty⟩

def scaleM (sx : ℚ) (sy : Option ℚ) : TransformMatrix :=
  let sy := sy.getD sx
  ⟨sx, 0, 0, sy, 0, 0⟩

def multiply (m other : TransformMatrix) : TransformMatrix :=
  ⟨m.a * other.a + m.c * other.b,
   m.b * other.a + m.d * other.b,
   m.a * other.c + m.c * other.d,
   m.b * other.c + m.d * other.d,
   m.a * other.e + m.c * other.f + m.e,
   m.b * other.e + m.d * other.f + m.f⟩

/-- rotate: built from the parametric cosine and sine of the angle in
    radians, conjugated by translations when the center is not the origin. -/
def rotateM (pm : PyMath) (angle_degrees cx cy : ℚ) : TransformMatrix :=
  let angle_rad := pm.radians angle_degrees
  let cos_a := pm.cos angle_rad
  let sin_a := pm.sin angle_rad
  if cx ≠ 0 ∨ cy ≠ 0 then
    let t1 := translateM (-cx) (-cy)
    let r : TransformMatrix := ⟨cos_a, sin_a, -sin_a, cos_a, 0, 0⟩
    let t2 := translateM cx cy
    (t2.multiply r).multiply t1
  else ⟨cos_a, sin_a, -sin_a, cos_a, 0, 0⟩

def is_identity (m : TransformMatrix) : Bool :=
  |m.a - 1| < 1/10^6 && |m.b| < 1/10^6 && |m.c| < 1/10^6 &&
  |m.d - 1| < 1/10^6 && |m.e| < 1/10^6 && |m.f| < 1/10^6

def transform_point (m : TransformMatrix) (x y : ℚ) : ℚ × ℚ :=
  (m.a * x + m.c * y + m.e, m.b * x + m.d * y + m.f)

def det (m : TransformMatrix) : ℚ := m.a * m.d - m.b * m.c

/-- inverse: the identity matrix when the determinant is within epsilon of
    zero, otherwise the exact affine inverse. -/
def inverse (m : TransformMatrix) : TransformMatrix :=
  let dt := m.a * m.d - m.b * m.c
  if |dt| < 1/10^10 then identityM
  else
    let inv_det := 1 / dt
    ⟨m.d * inv_det, -m.b * inv_det, -m.c * inv_det, m.a * inv_det,
     (m.c * m.f - m.d * m.e) * inv_det,
     (m.b * m.e - m.a * m.f) * inv_det⟩

end TransformMatrix

/-! ## svg_state.py: viewport and viewBox -/

/-- Fields of SVGState that the renderer reads (the validation report is
    not modelled; no claim depends on it). -/
structure SvgVals where
  tree : Option NodeT
  viewport_width : ℚ
  viewport_height : ℚ
  viewbox : Option (ℚ × ℚ × ℚ × ℚ)
  scale_x : ℚ
  scale_y : ℚ
  offset_x : ℚ
  offset_y : ℚ

/-- calculate_viewbox_transform: recomputes the four scale/offset fields
    from the viewport, the viewBox and the preserveAspectRatio attribute of
    the root (the source reads the attribute off the root node; a missing
    tree cannot reach this code on the real flow). -/
def calculate_viewbox_transform (s : SvgVals) : SvgVals :=
  match s.viewbox with
  | none => { s with scale_x := 1, scale_y := 1, offset_x := 0, offset_y := 0 }
  | some (vb_min_x, vb_min_y, vb_width, vb_height) =>
    let preserve_aspect :=
      match s.tree with
      | some root =>
        (get_attribute ⟨root.attrs, []⟩ "preserveAspectRatio"
          (some "xMidYMid meet") true).getD "xMidYMid meet"
      | none => "xMidYMid meet"
    let parts := splitWsC (stripC preserve_aspect.toList)
    if parts.length = 0 ∨ strOf (lowerC (parts.getD 0 [])) = "none" then
      let sx := if 0 < vb_width then s.viewport_width / vb_width else 1
      let sy := if 0 < vb_height then s.viewport_height / vb_height else 1
      { s with scale_x := sx, scale_y := sy,
               offset_x := -vb_min_x * sx, offset_y := -vb_min_y * sy }
    else
      let scx := if 0 < vb_width then s.viewport_width / vb_width else 1
      let scy := if 0 < vb_height then s.viewport_height / vb_height else 1
      let meet_or_slice :=
        if 1 < parts.length then strOf (lowerC (parts.getD 1 [])) else "meet"
      let scale := if meet_or_slice = "meet" then min scx scy else max scx scy
      let scaled_width := vb_width * scale
      let scaled_height := vb_height * scale
      let align := lowerC (parts.getD 0 [])
      let off_x :=
        if hasSubC "xmin".toList align then (0 : ℚ)
        else if hasSubC "xmid".toList align ∨
            (¬ hasSubC "xmid".toList align ∧ ¬ hasSubC "xmax".toList align) then
          (s.viewport_width - scaled_width) / 2
        else s.viewport_width - scaled_width
      let off_y :=
        if hasSubC "ymin".toList align then (0 : ℚ)
        else if hasSubC "ymid".toList align ∨
            (¬ hasSubC "ymid".toList align ∧ ¬ hasSubC "ymax".toList align) then
          (s.viewport_height - scaled_height) / 2
        else s.viewport_height - scaled_height
      { s with scale_x := scale, scale_y := scale,
               offset_x := off_x - vb_min_x * scale,
               offset_y := off_y - vb_min_y * scale }

/-- extract_viewport_info for a present root node: resolve width/height,
    parse the viewBox, apply the fallback chain, then compute the viewBox
    transform. -/
def extract_viewport_info (pm : PyMath) (root : NodeT) : SvgVals :=
  let attrs := root.attrs
  let w0 := (dictGet attrs "width").map
    (fun v => normalize_unit pm 100 v "length" none none none none)
  let h0 := (dictGet attrs "height").map
    (fun v => normalize_unit pm 100 v "length" none none none none)
  let vb :=
    match dictGet attrs "viewBox" with
    | none => none
    | some vbs =>
      let parts := splitWsC (stripC vbs.toList)
      if 4 ≤ parts.length then
        match pyFloatC (parts.getD 0 []), pyFloatC (parts.getD 1 []),
              pyFloatC (parts.getD 2 []), pyFloatC (parts.getD 3 []) with
        | some mx, some my, some w, some h => some (mx, my, w, h)
        | _, _, _, _ => none
      else none
  let w1 := match w0, vb with
    | none, some (_, _, vw, _) => some vw
    | w, _ => w
  let h1 := match h0, vb with
    | none, some (_, _, _, vh) => some vh
    | h, _ => h
  calculate_viewbox_transform
    { tree := some root,
      viewport_width := w1.getD 100,
      viewport_height := h1.getD 100,
      viewbox := vb, scale_x := 1, scale_y := 1, offset_x := 0, offset_y := 0 }

/-- SVGState.transform_point: document units to device units through the
    viewBox scale and offset. -/
def svgTransformPoint (s : SvgVals) (x y : ℚ) : ℚ × ℚ :=
  match s.viewbox with
  | none => (x, y)
  | some _ => (x * s.scale_x + s.offset_x, y * s.scale_y + s.offset_y)

/-- SVGState.transform_length. -/
def svgTransformLength (s : SvgVals) (len : ℚ) (is_horizontal : Bool) : ℚ :=
  match s.viewbox with
  | none => len
  | some _ => if is_horizontal then len * s.scale_x else len * s.scale_y

/-! ## svg_state.py: tree construction (parse_svg_contents) -/

/-- A parent frame of the construction cursor: tag, attributes, and the
    already completed earlier children in reverse order. -/
structure PFrame where
  tag : String
  attrs : AttrsD
  childrenRev : List NodeT

/-- The construction cursor: the node being built plus its parent chain.
    This is the zipper equivalent of the mutable cursor r of the source. -/
structure PCursor where
  tag : String
  attrs : AttrsD
  childrenRev : List NodeT
  frames : List PFrame

/-- States of the construction loop: building at a cursor, or the cursor
    has moved above the root (r is None) and the rest of the input is
    ignored. -/
inductive PState where
  | active (cur : PCursor)
  | closed (tree : NodeT)

def closeCursor (c : PCursor) : NodeT := .mk c.tag c.attrs c.childrenRev.reverse

/-- Fold the finished node back into its parent frame. -/
def intoParent (n : NodeT) (f : PFrame) : PCursor :=
  ⟨f.tag, f.attrs, n :: f.childrenRev, []⟩

/-- Close the zipper one parent frame at a time to recover the root node. -/
def closeAllAux (n : NodeT) : List PFrame → NodeT
  | [] => n
  | f :: rest => closeAllAux (closeCursor (intoParent n f)) rest

def closeAll (c : PCursor) : NodeT := closeAllAux (closeCursor c) c.frames

/-- One loop iteration of parse_svg_contents over one markup fragment. -/
def parseStep (st : PState) (e : String) : PState :=
  match st with
  | .closed t => .closed t
  | .active cur =>
    if is_terminator e ∧ cur.tag = get_tag e then
      match cur.frames with
      | [] => .closed (closeCursor cur)
      | f :: rest => .active { intoParent (closeCursor cur) f with frames := rest }
    else if is_self_terminating e then
      .active { cur with childrenRev := mkNodeS e :: cur.childrenRev }
    else
      .active
        { tag := get_tag e, attrs := parse_attributes e, childrenRev := [],
          frames := ⟨cur.tag, cur.attrs, cur.childrenRev⟩ :: cur.frames }

/-- parse_svg_contents: skip fragments until the svg root opens (they feed
    the metadata dict, which is not modelled), then run the cursor loop;
    the result is the root of whatever tree was built. -/
def parse_svg_contents (entries : List String) : Option NodeT :=
  match entries.dropWhile (fun e => get_tag e ≠ "svg") with
  | [] => none
  | rootE :: rest =>
    let st0 : PState :=
      .active ⟨get_tag rootE, parse_attributes rootE, [], []⟩
    match rest.foldl parseStep st0 with
    | .closed t => some t
    | .active cur => some (closeAll cur)

/-! ## drawing_context.py: DrawingContext -/

/-- Clip region variants (the tagged dicts of the source). -/
inductive ClipRegion where
  | rect (bounds : ℤ × ℤ × ℤ × ℤ)
  | polygon (points : List (ℤ × ℤ)) (rule : String)
  | intersection (regions : List ClipRegion)

structure DrawingContext where
  transform : TransformMatrix
  fill_color : RGBA
  stroke_color : RGBA
  stroke_width : ℚ
  opacity : ℚ
  clip_region : Option ClipRegion

/-- DrawingContext.__init__. -/
def defaultContext : DrawingContext :=
  { transform := TransformMatrix.identityM,
    fill_color := (0, 0, 0, 255),
    stroke_color := (0, 0, 0, 255),
    stroke_width := 1,
    opacity := 1,
    clip_region := none }

/-- DrawingContext.push: a fresh context receiving every field of the
    parent (the transform is copied, the clip region shared). -/
def DrawingContext.push (c : DrawingContext) : DrawingContext :=
  { transform := c.transform,
    fill_color := c.fill_color,
    stroke_color := c.stroke_color,
    stroke_width := c.stroke_width,
    opacity := c.opacity,
    clip_region := c.clip_region }

/-- apply_node_attributes.  The Bool is false when resolving a color raises
    (the context then carries the mutations made before the raise). -/
def applyNodeAttrs (node : NodeLoc) (c0 : DrawingContext) : DrawingContext × Bool :=
  match get_node_color node "fill" "opacity" with
  | .error _ => (c0, false)
  | .ok fc =>
    let c1 := { c0 with fill_color := fc }
    match get_node_color node "stroke" "opacity" with
    | .error _ => (c1, false)
    | .ok sc =>
      let c2 := { c1 with stroke_color := sc }
      let c3 :=
        match get_attribute node "stroke-width" (some "1") true with
        | some v => if v ≠ "" then { c2 with stroke_width := (pyFloatS v).getD 1 } else c2
        | none => c2
      let c4 :=
        match get_attribute node "opacity" (some "1") true with
        | some v =>
          if v ≠ "" then
            { c3 with opacity := match pyFloatS v with
                                 | some q => max 0 (min 1 q)
                                 | none => 1 }
          else c3
        | none => c3
      (c4, true)

def transformNames : List String :=
  ["matrix", "translate", "rotate", "scale", "skewx", "skewy"]

/-- Case-insensitive removal of a leading name. -/
def stripNameCI (name cs : List Char) : Option (List Char) :=
  if name.length ≤ cs.length ∧ lowerC (cs.take name.length) = name then
    some (cs.drop name.length)
  else none

/-- One attempted match of name ws* ( non-empty-content ) at the current
    position, mirroring the alternation of the transform pattern. -/
def tryTransformAt (cs : List Char) : Option (String × String × List Char) :=
  transformNames.findSome? (fun nm =>
    match stripNameCI nm.toList cs with
    | none => none
    | some rest =>
      match rest.dropWhile isWsC with
      | '(' :: r3 =>
        let content := r3.takeWhile (fun c => c ≠ ')')
        let after := r3.dropWhile (fun c => c ≠ ')')
        if content.isEmpty then none
        else
          match after with
          | ')' :: r4 => some (nm, strOf content, r4)
          | _ => none
      | _ => none)

/-- Left-to-right non-overlapping scan for transform function calls
    (fuelled by the input length; every step consumes at least one char). -/
def scanTransform : ℕ → List Char → List (String × String)
  | 0, _ => []
  | _ + 1, [] => []
  | f + 1, c :: cs =>
    match tryTransformAt (c :: cs) with
    | some (nm, content, rest) => (nm, content) :: scanTransform f rest
    | none => scanTransform f cs

def findTransformCalls (s : String) : List (String × String) :=
  scanTransform s.toList.length s.toList

/-- Application of one matched transform call to the accumulated matrix;
    false when converting a parameter to float raises. -/
def applyTransformOne (pm : PyMath) (svg : Option SvgVals) (m : TransformMatrix)
    (nm params_str : String) : TransformMatrix × Bool :=
  let fields := splitCommaWsC (stripC params_str.toList)
  match fields.mapM pyFloatC with
  | none => (m, false)
  | some params =>
    if nm = "matrix" ∧ 6 ≤ params.length then
      (m.multiply ⟨params.getD 0 0, params.getD 1 0, params.getD 2 0,
                   params.getD 3 0, params.getD 4 0, params.getD 5 0⟩, true)
    else if nm = "translate" then
      (m.multiply (TransformMatrix.translateM (params.getD 0 0) (params.getD 1 0)), true)
    else if nm = "rotate" then
      let angle := params.getD 0 0
      let cx := params.getD 1 0
      let cy := params.getD 2 0
      let (cx, cy) :=
        match svg with
        | some sv => if sv.viewbox.isSome then svgTransformPoint sv cx cy else (cx, cy)
        | none => (cx, cy)
      (m.multiply (TransformMatrix.rotateM pm angle cx cy), true)
    else if nm = "scale" then
      let sx := params.getD 0 1
      let sy := if 1 < params.length then params.getD 1 1 else sx
      (m.multiply (TransformMatrix.scaleM sx (some sy)), true)
    else if nm = "skewx" then
      let tan_a := pm.tan (pm.radians (params.getD 0 0))
      (m.multiply ⟨1, 0, tan_a, 1, 0, 0⟩, true)
    else if nm = "skewy" then
      let tan_a := pm.tan (pm.radians (params.getD 0 0))
      (m.multiply ⟨1, tan_a, 0, 1, 0, 0⟩, true)
    else (m, true)

/-- apply_transform over the accumulated matrix (the source mutates
    self.transform once per matched call; on a raise the earlier calls
    remain applied). -/
def apply_transform (pm : PyMath) (svg : Option SvgVals) (transform_str : String)
    (m0 : TransformMatrix) : TransformMatrix × Bool :=
  if transform_str = "" then (m0, true)
  else
    (findTransformCalls transform_str).foldl
      (fun p call =>
        if p.2 then applyTransformOne pm svg p.1 call.1 call.2 else p)
      (m0, true)

/-! ## renderer.py -/

/-- geometry.get_normalized_attribute (defined here because it reads node
    attributes resolved against the viewport). -/
def get_normalized_attribute (pm : PyMath) (n : NodeLoc) (attr_name : String)
    (dflt : ℚ) (vw vh : Option ℚ) : ℚ :=
  match get_attribute n attr_name none true with
  | none => dflt
  | some v => normalize_unit pm 100 v "length" vw vh none none

/-- Pixel buffer: rows of RGBA values (np.uint8 content is modelled as
    integers; blend_colors keeps channels in byte range on byte inputs). -/
abbrev Buffer := List (List RGBA)

/-- Renderer instance state.  previousStack records the value assigned at
    the end of _render_node; the field is never read by the source. -/
structure RState where
  svg : SvgVals
  width : ℤ
  height : ℤ
  anti_aliasing : Bool
  buffer : Buffer
  stack : List DrawingContext
  previousStack : Option (List DrawingContext)

/-- Renderer.__init__.  When an override dimension differs from the
    viewport, the shared SVG state is mutated and the viewBox transform
    recomputed; a negative dimension (np.zeros would raise) is clamped by
    toNat and outside every theorem below. -/
def renderer_init (st : SvgVals) (width? height? : Option ℤ)
    (background_color : ℤ × ℤ × ℤ) (anti_aliasing : Bool) : RState :=
  let original_width := st.viewport_width
  let original_height := st.viewport_height
  let width := width?.getD (pyInt original_width)
  let height := height?.getD (pyInt original_height)
  let svg1 :=
    if (width : ℚ) ≠ original_width ∨ (height : ℚ) ≠ original_height then
      calculate_viewbox_transform
        { st with viewport_width := (width : ℚ), viewport_height := (height : ℚ) }
    else st
  let row := List.replicate width.toNat
    (background_color.1, background_color.2.1, background_color.2.2, (255 : ℤ))
  { svg := svg1, width := width, height := height,
    anti_aliasing := anti_aliasing,
    buffer := List.replicate height.toNat row,
    stack := [defaultContext], previousStack := none }

/-- Renderer._get_current_context (the stack is never empty on any
    reachable state; the default is unreachable padding). -/
def get_current_context (s : RState) : DrawingContext :=
  s.stack.headD defaultContext

/-- Renderer._push_context. -/
def push_context (s : RState) : RState :=
  { s with stack := (get_current_context s).push :: s.stack }

/-- Renderer._pop_context: refuses to remove the last element. -/
def pop_context (s : RState) : RState :=
  if 1 < s.stack.length then { s with stack := s.stack.tail } else s

/-- In-place mutation of the context object at the top of the stack. -/
def setTopCtx (s : RState) (f : DrawingContext → DrawingContext) : RState :=
  match s.stack with
  | [] => s
  | c :: rest => { s with stack := f c :: rest }

/-- In-place mutation of the context object directly below the top (the
    pre-push context the group handler holds a reference to). -/
def setSecondCtx (s : RState) (f : DrawingContext → DrawingContext) : RState :=
  match s.stack with
  | a :: b :: rest => { s with stack := a :: f b :: rest }
  | _ => s

/-- Renderer._svg_to_pixel on numeric inputs (the string-typed dummy
    sentinel guard of the source only fires on path sentinels, which are
    inside the abstracted path rasterizer). -/
def svg_to_pixel (s : RState) (x y : ℚ) : ℤ × ℤ :=
  let (px, py) := svgTransformPoint s.svg x y
  let (px, py) := (get_current_context s).transform.transform_point px py
  (pyRound px, pyRound py)

/-- Renderer._pixel_to_svg. -/
def pixel_to_svg (s : RState) (px py : ℚ) : ℚ × ℚ :=
  let inv := (get_current_context s).transform.inverse
  let (px, py) := inv.transform_point px py
  match s.svg.viewbox with
  | none => (px, py)
  | some _ =>
    let px2 := if s.svg.scale_x ≠ 0 then (px - s.svg.offset_x) / s.svg.scale_x else px
    let py2 := if s.svg.scale_y ≠ 0 then (py - s.svg.offset_y) / s.svg.scale_y else py
    (px2, py2)

/-- Renderer._point_in_polygon (clip regions carry integer points, so the
    string-typed dummy guards of the source are vacuous here).  The even-odd
    crossing test divides in rational arithmetic where the source divides in
    floats. -/
def point_in_polygon (x y : ℤ) (points : List (ℤ × ℤ)) (fill_rule : String) : Bool :=
  if points.length < 3 then false
  else
    let prevs :=
      match points with
      | [] => []
      | _ => points.getLastD (0, 0) :: points.dropLast
    let pairs := points.zip prevs
    if fill_rule = "evenodd" then
      pairs.foldl
        (fun inside pr =>
          let (xi, yi) := pr.1
          let (xj, yj) := pr.2
          if (decide (y < yi) ≠ decide (y < yj)) ∧
              (x : ℚ) < ((xj : ℚ) - xi) * ((y : ℚ) - yi) / ((yj : ℚ) - yi) + xi then
            !inside
          else inside)
        false
    else
      (pairs.foldl
        (fun winding pr =>
          let (xi, yi) := pr.1
          let (xj, yj) := pr.2
          if yi ≤ y then
            if y < yj ∧ 0 < (xj - xi) * (y - yi) - (yj - yi) * (x - xi) then winding + 1
            else winding
          else
            if yj ≤ y ∧ (xj - xi) * (y - yi) - (yj - yi) * (x - xi) < 0 then winding - 1
            else winding)
        (0 : ℤ)) ≠ 0

mutual

/-- Renderer._check_clip_region: true means the point is rejected. -/
def check_clip_region (x y : ℤ) : ClipRegion → Bool
  | .rect (rx, ry, rw, rh) => !(rx ≤ x ∧ x < rx + rw ∧ ry ≤ y ∧ y < ry + rh)
  | .polygon pts rule => !point_in_polygon x y pts rule
  | .intersection regions => check_clip_regionL x y regions

def check_clip_regionL (x y : ℤ) : List ClipRegion → Bool
  | [] => false
  | r :: rest => check_clip_region x y r || check_clip_regionL x y rest

end

/-- Renderer._is_point_clipped. -/
def is_point_clipped (s : RState) (x y : ℤ) : Bool :=
  match (get_current_context s).clip_region with
  | none => false
  | some r => check_clip_region x y r

def bufGet (b : Buffer) (x y : ℤ) : RGBA :=
  (b.getD y.toNat []).getD x.toNat (0, 0, 0, 0)

def bufSet (b : Buffer) (x y : ℤ) (c : RGBA) : Buffer :=
  b.set y.toNat ((b.getD y.toNat []).set x.toNat c)

/-- Renderer._set_pixel.  The buffer being written through is threaded
    explicitly; bounds, clip region and blending follow the source. -/
def set_pixel (s : RState) (b : Buffer) (x y : ℤ) (color : RGBA) : Buffer :=
  if x < 0 ∨ s.width ≤ x ∨ y < 0 ∨ s.height ≤ y then b
  else if is_point_clipped s x y then b
  else bufSet b x y (blend_colors color (bufGet b x y))

/-- Renderer._set_pixel_aa. -/
def set_pixel_aa (s : RState) (b : Buffer) (x y : ℤ) (color : RGBA)
    (coverage : ℚ) : Buffer :=
  if x < 0 ∨ s.width ≤ x ∨ y < 0 ∨ s.height ≤ y then b
  else if is_point_clipped s x y then b
  else
    let coverage := max 0 (min 1 coverage)
    if coverage ≤ 0 then b
    else
      let (r, g, bl, a) := color
      bufSet b x y (blend_colors (r, g, bl, pyInt ((a : ℚ) * coverage)) (bufGet b x y))

/-- Renderer._calculate_coverage with its fixed 2x2 sample grid. -/
def calculate_coverage (px py : ℚ) (shape : ℚ → ℚ → Bool) : ℚ :=
  let hits := ([0, 1] : List ℚ).foldl
    (fun acc sy => ([0, 1] : List ℚ).foldl
      (fun acc2 sx =>
        if shape (px + (sx + 1/2) / 2) (py + (sy + 1/2) / 2) then acc2 + 1 else acc2)
      acc)
    (0 : ℚ)
  hits / 4

/-- Python range(a, b) over integers. -/
def intRange (a b : ℤ) : List ℤ :=
  (List.range (b - a).toNat).map (fun i => a + (i : ℤ))

def foldPixels (ys xs : List ℤ) (f : Buffer → ℤ → ℤ → Buffer) (b0 : Buffer) : Buffer :=
  ys.foldl (fun b py => xs.foldl (fun b2 px => f b2 px py) b) b0

/-- Membership test of the rounded-rectangle outline for a device point,
    looking back through the inverse transform (the rx = ry = 0 variant is
    the plain rectangle test). -/
def insideRoundedRect (s : RState) (x y width height rx ry : ℚ) (px py : ℚ) : Bool :=
  let (svg_x, svg_y) := pixel_to_svg s px py
  if rx = 0 ∧ ry = 0 then
    x ≤ svg_x ∧ svg_x ≤ x + width ∧ y ≤ svg_y ∧ svg_y ≤ y + height
  else
    if svg_x < x ∨ x + width < svg_x ∨ svg_y < y ∨ y + height < svg_y then false
    else
      let corner_x := x + rx
      let corner_y := y + ry
      if svg_x < corner_x ∧ svg_y < corner_y then
        let dx := svg_x - corner_x
        let dy := svg_y - corner_y
        dx * dx / (rx * rx) + dy * dy / (ry * ry) ≤ 1
      else
        let corner_x2 := x + width - rx
        if corner_x2 < svg_x ∧ svg_y < corner_y then
          let dx := svg_x - corner_x2
          let dy := svg_y - corner_y
          dx * dx / (rx * rx) + dy * dy / (ry * ry) ≤ 1
        else
          let corner_y2 := y + height - ry
          if svg_x < x + rx ∧ corner_y2 < svg_y then
            let dx := svg_x - (x + rx)
            let dy := svg_y - corner_y2
            dx * dx / (rx * rx) + dy * dy / (ry * ry) ≤ 1
          else if x + width - rx < svg_x ∧ corner_y2 < svg_y then
            let dx := svg_x - (x + width - rx)
            let dy := svg_y - corner_y2
            dx * dx / (rx * rx) + dy * dy / (ry * ry) ≤ 1
          else true

/-- Membership test of the inner (fill-minus-stroke) rounded rectangle. -/
def insideInnerRect (s : RState) (x y width height rx ry stroke_width_svg : ℚ)
    (px py : ℚ) : Bool :=
  if rx = 0 ∧ ry = 0 then
    if stroke_width_svg ≤ 0 then false
    else
      let (svg_x, svg_y) := pixel_to_svg s px py
      let half := stroke_width_svg
      let inner_min_x := x + half
      let inner_max_x := x + width - half
      let inner_min_y := y + half
      let inner_max_y := y + height - half
      if inner_max_x ≤ inner_min_x ∨ inner_max_y ≤ inner_min_y then false
      else inner_min_x ≤ svg_x ∧ svg_x ≤ inner_max_x ∧
           inner_min_y ≤ svg_y ∧ svg_y ≤ inner_max_y
  else
    let (svg_x, svg_y) := pixel_to_svg s px py
    let half := stroke_width_svg
    let inner_min_x := x + half
    let inner_max_x := x + width - half
    let inner_min_y := y + half
    let inner_max_y := y + height - half
    if inner_max_x ≤ inner_min_x ∨ inner_max_y ≤ inner_min_y then false
    else if svg_x < inner_min_x ∨ inner_max_x < svg_x ∨
        svg_y < inner_min_y ∨ inner_max_y < svg_y then false
    else
      let inner_rx := max 0 (rx - half)
      let inner_ry := max 0 (ry - half)
      if inner_rx = 0 ∨ inner_ry = 0 then true
      else
        let corner_x := inner_min_x + inner_rx
        let corner_y := inner_min_y + inner_ry
        if svg_x < corner_x ∧ svg_y < corner_y then
          let dx := svg_x - corner_x
          let dy := svg_y - corner_y
          dx * dx / (inner_rx * inner_rx) + dy * dy / (inner_ry * inner_ry) ≤ 1
        else
          let corner_x2 := inner_max_x - inner_rx
          if corner_x2 < svg_x ∧ svg_y < corner_y then
            let dx := svg_x - corner_x2
            let dy := svg_y - corner_y
            dx * dx / (inner_rx * inner_rx) + dy * dy / (inner_ry * inner_ry) ≤ 1
          else
            let corner_y2 := inner_max_y - inner_ry
            if svg_x < inner_min_x + inner_rx ∧ corner_y2 < svg_y then
              let dx := svg_x - (inner_min_x + inner_rx)
              let dy := svg_y - corner_y2
              dx * dx / (inner_rx * inner_rx) + dy * dy / (inner_ry * inner_ry) ≤ 1
            else if inner_max_x - inner_rx < svg_x ∧ corner_y2 < svg_y then
              let dx := svg_x - (inner_max_x - inner_rx)
              let dy := svg_y - corner_y2
              dx * dx / (inner_rx * inner_rx) + dy * dy / (inner_ry * inner_ry) ≤ 1
            else true

/-- Renderer._render_rect: bounding box from the four transformed corners,
    an axis-aligned fast path for untransformed sharp rectangles, and the
    general per-pixel membership path with optional 2x2 coverage. -/
def render_rect (pm : PyMath) (node : NodeLoc) (s : RState) : Buffer :=
  let ctx := get_current_context s
  let vw := s.svg.viewport_width
  let vh := s.svg.viewport_height
  let x := get_normalized_attribute pm node "x" 0 (some vw) (some vh)
  let y := get_normalized_attribute pm node "y" 0 (some vw) (some vh)
  let width := get_normalized_attribute pm node "width" 0 (some vw) (some vh)
  let height := get_normalized_attribute pm node "height" 0 (some vw) (some vh)
  if width ≤ 0 ∨ height ≤ 0 then s.buffer
  else
    let rx0 := get_normalized_attribute pm node "rx" 0 (some vw) (some vh)
    let ry0 := get_normalized_attribute pm node "ry" 0 (some vw) (some vh)
    let rxy :=
      if 0 < rx0 ∧ ry0 = 0 then (rx0, rx0)
      else if 0 < ry0 ∧ rx0 = 0 then (ry0, ry0)
      else (rx0, ry0)
    let rx := min rxy.1 (width / 2)
    let ry := min rxy.2 (height / 2)
    let stroke_width_svg := ctx.stroke_width
    let stroke_width_px :=
      if 0 < stroke_width_svg then svgTransformLength s.svg stroke_width_svg true else 0
    let (fr, fg, fb, fa) := ctx.fill_color
    let (sr, sg, sb, sa) := ctx.stroke_color
    let fill_color : RGBA :=
      if ctx.opacity < 1 ∧ 0 < fa then (fr, fg, fb, pyInt ((fa : ℚ) * ctx.opacity))
      else (fr, fg, fb, fa)
    let stroke_color : RGBA :=
      if ctx.opacity < 1 ∧ 0 < sa then (sr, sg, sb, pyInt ((sa : ℚ) * ctx.opacity))
      else (sr, sg, sb, sa)
    let (px1, py1) := svg_to_pixel s x y
    let (px2, py2) := svg_to_pixel s (x + width) (y + height)
    let (px3, py3) := svg_to_pixel s x (y + height)
    let (px4, py4) := svg_to_pixel s (x + width) y
    let min_x := min px1 (min px2 (min px3 px4))
    let max_x := max px1 (max px2 (max px3 px4))
    let min_y := min py1 (min py2 (min py3 py4))
    let max_y := max py1 (max py2 (max py3 py4))
    if rx = 0 ∧ ry = 0 ∧ ctx.transform.is_identity then
      let min_x_int := max 0 min_x
      let max_x_int := min s.width (max_x + 1)
      let min_y_int := max 0 min_y
      let max_y_int := min s.height (max_y + 1)
      let b1 :=
        if 0 < fill_color.2.2.2 then
          foldPixels (intRange min_y_int max_y_int) (intRange min_x_int max_x_int)
            (fun b px py => set_pixel s b px py fill_color) s.buffer
        else s.buffer
      if 0 < stroke_width_px ∧ 0 < stroke_color.2.2.2 then
        let stroke_half := pyInt (stroke_width_px / 2)
        foldPixels (intRange min_y_int max_y_int) (intRange min_x_int max_x_int)
          (fun b px py =>
            let dist_to_edge :=
              min (px - min_x_int)
                (min (max_x_int - 1 - px) (min (py - min_y_int) (max_y_int - 1 - py)))
            if dist_to_edge < stroke_half then set_pixel s b px py stroke_color else b)
          b1
      else b1
    else
      let inside := insideRoundedRect s x y width height rx ry
      let inner := insideInnerRect s x y width height rx ry stroke_width_svg
      let onEdge := fun px py => inside px py && !inner px py
      let ys := intRange (max 0 (min_y - 1)) (min s.height (max_y + 2))
      let xs := intRange (max 0 (min_x - 1)) (min s.width (max_x + 2))
      let b1 :=
        if 0 < fill_color.2.2.2 then
          foldPixels ys xs
            (fun b px py =>
              if s.anti_aliasing then
                let coverage := calculate_coverage (px : ℚ) (py : ℚ) inside
                if 0 < coverage then set_pixel_aa s b px py fill_color coverage else b
              else if inside ((px : ℚ) + 1/2) ((py : ℚ) + 1/2) then
                set_pixel s b px py fill_color
              else b)
            s.buffer
        else s.buffer
      if 0 < stroke_width_px ∧ 0 < stroke_color.2.2.2 then
        foldPixels ys xs
          (fun b px py =>
            if s.anti_aliasing then
              let coverage := calculate_coverage (px : ℚ) (py : ℚ) onEdge
              if 0 < coverage then set_pixel_aa s b px py stroke_color coverage else b
            else if onEdge ((px : ℚ) + 1/2) ((py : ℚ) + 1/2) then
              set_pixel s b px py stroke_color
            else b)
          b1
      else b1

/-- Python truthiness of an optional string attribute value. -/
def truthyO : Option String → Bool
  | some v => v ≠ ""
  | none => false

mutual

/-- Renderer._find_node_by_id: depth-first search returning the node
    together with its ancestor attribute chain (nearest first). -/
def findById (node_id : String) (anc : List AttrsD) :
    NodeT → Option (List AttrsD × NodeT)
  | .mk t a cs =>
    if dictGet a "id" = some node_id then some (anc, .mk t a cs)
    else findByIdL node_id (a :: anc) cs

def findByIdL (node_id : String) (anc : List AttrsD) :
    List NodeT → Option (List AttrsD × NodeT)
  | [] => none
  | n :: ns =>
    match findById node_id anc n with
    | some r => some r
    | none => findByIdL node_id anc ns

end

/-- External pieces of the renderer with no exact rational embedding: the
    trigonometric kit, the shape rasterizers that sample circles, ellipses,
    line caps/joins and flattened paths (each one reads the current context
    and SVG state and writes only to the pixel buffer — none of them touches
    the context stack, see the _render_circle .. _render_path bodies), and
    the clip-path resolver (which needs the path interpreter).  A false Bool
    from a rasterizer models an uncaught exception while drawing.  Every
    theorem below holds for all choices of these parameters. -/
structure RenderExt where
  pm : PyMath
  draw_circle : NodeLoc → RState → Buffer × Bool
  draw_ellipse : NodeLoc → RState → Buffer × Bool
  draw_line : NodeLoc → RState → Buffer × Bool
  draw_polyline : NodeLoc → RState → Buffer × Bool
  draw_path : NodeLoc → RState → Buffer × Bool
  parse_clip : RState → String → Option ClipRegion

/-- Lines 253-254 of the walk: resolve the paint attributes into the
    current context object. -/
def rnAttrs (nodeL : NodeLoc) (s : RState) : RState × Bool :=
  let pr := applyNodeAttrs nodeL (get_current_context s)
  (setTopCtx s (fun _ => pr.1), pr.2)

/-- Lines 261-265 of the walk: transformed non-group element: push a
    context, re-resolve the attributes in it, then apply the transform. -/
def rnTransformNonG (pm : PyMath) (nodeL : NodeLoc) (ts : String)
    (s : RState) : RState × Bool :=
  let s2 := push_context s
  let a2 := rnAttrs nodeL s2
  if ¬ a2.2 then (a2.1, false)
  else
    let mt := apply_transform pm (some a2.1.svg) ts (get_current_context a2.1).transform
    (setTopCtx a2.1 (fun c => { c with transform := mt.1 }), mt.2)

/-- Lines 266-267 of the walk: group transform applied in place to the
    shared current context. -/
def rnTransformG (pm : PyMath) (ts : String) (s : RState) : RState × Bool :=
  let mt := apply_transform pm (some s.svg) ts (get_current_context s).transform
  (setTopCtx s (fun c => { c with transform := mt.1 }), mt.2)

/-- Lines 269-278 of the walk: resolve a clip path and attach it to the
    current context, intersecting with an already present region. -/
def rnClip (ext : RenderExt) (clip_path_str : Option String) (s : RState) : RState :=
  if truthyO clip_path_str then
    match ext.parse_clip s (clip_path_str.getD "") with
    | some region =>
      setTopCtx s (fun c =>
        let newClip :=
          match c.clip_region with
          | none => region
          | some old => ClipRegion.intersection [old, region]
        { c with clip_region := some newClip })
    | none => s
  else s

/-- Type of the recursive entry point handed to the dispatch and tail
    phases (the walk at the remaining fuel). -/
abbrev RenderRec := List AttrsD → NodeT → RState → RState × Bool

/-- Renderer._render_use: resolve the href (falling back to xlink:href),
    locate the referenced node, then recurse under a pushed context that
    received the x/y translation (the source routes the translation through
    a formatted transform string whose reparse yields exactly this
    translation matrix). -/
def rnUse (ext : RenderExt) (recurse : RenderRec) (nodeL : NodeLoc)
    (sB : RState) : RState × Bool :=
  let href0 := get_attribute nodeL "href" none false
  let href :=
    if truthyO href0 then href0
    else get_attribute nodeL "xlink:href" none false
  if ¬ truthyO href then (sB, true)
  else
    let h0 := stripC (href.getD "").toList
    let h := if startsC "#".toList h0 then h0.drop 1 else h0
    let found :=
      match sB.svg.tree with
      | some root => findById (strOf h) [] root
      | none => none
    match found with
    | none => (sB, true)
    | some (tAnc, target) =>
      let vw := sB.svg.viewport_width
      let vh := sB.svg.viewport_height
      let ux := get_normalized_attribute ext.pm nodeL "x" 0 (some vw) (some vh)
      let uy := get_normalized_attribute ext.pm nodeL "y" 0 (some vw) (some vh)
      let su := push_context sB
      let su2 :=
        if ux ≠ 0 ∨ uy ≠ 0 then
          setTopCtx su (fun c =>
            { c with transform :=
                c.transform.multiply (TransformMatrix.translateM ux uy) })
        else su
      let pu := recurse tAnc target su2
      if ¬ pu.2 then (pu.1, false) else (pop_context pu.1, true)

/-- Lines 280-311 of the walk: the tag dispatch.  A group pushes, recurses
    into its children, then sets the transform of the pre-push context
    object (held by reference, located just below the pushed context) to
    the identity (the saved copy of that transform in the source is never
    restored) and pops.  A rect is rasterized by the embedded
    render_rect; the other shapes by the abstracted rasterizers.  A use
    element resolves its reference and recurses under a pushed, translated
    context. -/
def rnDispatch (ext : RenderExt) (recurse : RenderRec) (anc : List AttrsD)
    (node : NodeT) (sB : RState) : RState × Bool :=
  let nodeL : NodeLoc := ⟨node.attrs, anc⟩
  if node.tag = "g" then
    let sg := push_context sB
    let p := node.children.foldl
      (fun p child => if p.2 then recurse (node.attrs :: anc) child p.1 else p)
      (sg, true)
    if ¬ p.2 then p
    else
      (pop_context (setSecondCtx p.1
        (fun c => { c with transform := TransformMatrix.identityM })), true)
  else if node.tag = "rect" then
    ({ sB with buffer := render_rect ext.pm nodeL sB }, true)
  else if node.tag = "circle" then
    let pr := ext.draw_circle nodeL sB
    ({ sB with buffer := pr.1 }, pr.2)
  else if node.tag = "ellipse" then
    let pr := ext.draw_ellipse nodeL sB
    ({ sB with buffer := pr.1 }, pr.2)
  else if node.tag = "line" then
    let pr := ext.draw_line nodeL sB
    ({ sB with buffer := pr.1 }, pr.2)
  else if node.tag = "polyline" then
    let pr := ext.draw_polyline nodeL sB
    ({ sB with buffer := pr.1 }, pr.2)
  else if node.tag = "path" then
    let pr := ext.draw_path nodeL sB
    ({ sB with buffer := pr.1 }, pr.2)
  else if node.tag = "use" then rnUse ext recurse nodeL sB
  else (sB, true)

/-- Line 317 of the walk: record previousStack (only reached without a
    raise; an error in the children skips it). -/
def rnAfterChildren (pE : RState × Bool) : RState × Bool :=
  if ¬ pE.2 then (pE.1, false)
  else ({ pE.1 with previousStack := some pE.1.stack }, true)

/-- Lines 313-317 of the walk: the child recursion of non-group elements
    followed by the previousStack assignment. -/
def rnFinish (ext : RenderExt) (recurse : RenderRec) (anc : List AttrsD)
    (node : NodeT) (sD : RState) : RState × Bool :=
  if node.tag ≠ "g" then
    rnAfterChildren
      (node.children.foldl
        (fun p child => if p.2 then recurse (node.attrs :: anc) child p.1 else p)
        (sD, true))
  else rnAfterChildren (sD, true)

/-- Lines 280-317 of the walk: dispatch, the matching pop for a
    transformed non-group element, then the finish (the dispatch value is
    written out repeatedly here where the source computes it once; the
    expressions are equal). -/
def rnTail (ext : RenderExt) (recurse : RenderRec) (anc : List AttrsD)
    (node : NodeT) (pushedT : Bool) (sB : RState) : RState × Bool :=
  if ¬ (rnDispatch ext recurse anc node sB).2 then
    ((rnDispatch ext recurse anc node sB).1, false)
  else
    rnFinish ext recurse anc node
      (if pushedT then pop_context (rnDispatch ext recurse anc node sB).1
       else (rnDispatch ext recurse anc node sB).1)

/-- Error gate after the transform phase (line 268 onward): a raise while
    applying attributes or the transform stops the walk; otherwise the clip
    is resolved and the tail runs with the pushed flag recomputed exactly
    as at line 310 of the source. -/
def rnAfterTri (ext : RenderExt) (recurse : RenderRec) (anc : List AttrsD)
    (node : NodeT) (tri : RState × Bool) : RState × Bool :=
  if ¬ tri.2 then (tri.1, false)
  else
    rnTail ext recurse anc node
      ((get_attribute ⟨node.attrs, anc⟩ "transform" none false).isSome
        && !(node.tag == "g"))
      (rnClip ext (get_attribute ⟨node.attrs, anc⟩ "clip-path" none true) tri.1)

/-- Lines 256-317 of the walk after the first attribute resolution: the
    transform branch selection (the source reads the transform attribute
    once; it is re-read here, always with the same value), then the gate,
    clip and tail. -/
def rnMid (ext : RenderExt) (recurse : RenderRec) (anc : List AttrsD)
    (node : NodeT) (s1 : RState) : RState × Bool :=
  rnAfterTri ext recurse anc node
    (if (get_attribute ⟨node.attrs, anc⟩ "transform" none false).isSome
        && !(node.tag == "g") then
      rnTransformNonG ext.pm ⟨node.attrs, anc⟩
        ((get_attribute ⟨node.attrs, anc⟩ "transform" none false).getD "") s1
    else if (get_attribute ⟨node.attrs, anc⟩ "transform" none false).isSome then
      rnTransformG ext.pm
        ((get_attribute ⟨node.attrs, anc⟩ "transform" none false).getD "") s1
    else (s1, true))

/-- Renderer._render_node and Renderer._render_use, mutually inlined and
    fuelled (the source recursion is unbounded because a use element may
    reference an ancestor of itself; exhausted fuel is reported like an
    exception).  The walk follows the source line by line: resolve paint
    attributes into the current context (rnAttrs); push a context for a
    transformed non-group element (rnTransformNonG) or apply a group
    transform in place (rnTransformG); resolve a clip path into the
    current context (rnClip); then dispatch and finish (rnTail). -/
def render_node (ext : RenderExt) : ℕ → List AttrsD → NodeT → RState → RState × Bool
  | 0, _, _, s => (s, false)
  | fuel + 1, anc, node, s0 =>
    if ¬ (rnAttrs ⟨node.attrs, anc⟩ s0).2 then ((rnAttrs ⟨node.attrs, anc⟩ s0).1, false)
    else
      rnMid ext (fun anc2 nd st => render_node ext fuel anc2 nd st) anc node
        (rnAttrs ⟨node.attrs, anc⟩ s0).1

/-- Renderer.render. -/
def renderer_render (ext : RenderExt) (fuel : ℕ) (s : RState) : RState × Bool :=
  match s.svg.tree with
  | none => (s, true)
  | some root => render_node ext fuel [] root s

/-- Renderer construction followed by a render pass, the pipeline a caller
    runs per output image. -/
def render_document (ext : RenderExt) (fuel : ℕ) (st : SvgVals)
    (width? height? : Option ℤ) (bg : ℤ × ℤ × ℤ) (aa : Bool) : RState × Bool :=
  renderer_render ext fuel (renderer_init st width? height? bg aa)

/-! ## renderer.py: Bezier flattening -/

def midpointB (a b : ℚ × ℚ) : ℚ × ℚ := ((a.1 + b.1) / 2, (a.2 + b.2) / 2)

/-- Flatness heuristic of the cubic subdivision. -/
def flatnessCubic (p0 p1 p2 p3 : ℚ × ℚ) : ℚ :=
  let ux := 3 * p1.1 - 2 * p0.1 - p3.1
  let uy := 3 * p1.2 - 2 * p0.2 - p3.2
  let vx := 3 * p2.1 - 2 * p3.1 - p0.1
  let vy := 3 * p2.2 - 2 * p3.2 - p0.2
  max (ux * ux + uy * uy) (vx * vx + vy * vy)

/-- Recursive core of _subdivide_cubic_bezier over the remaining gas
    (gas = 11 - depth: the source guard depth greater than 10 is exactly
    gas = 0, and each recursive call at depth + 1 is gas - 1): emit the
    endpoint when the gas is out or the segment is flat, else split at the
    midpoints (the appended points of the source, in order). -/
def subCubicGo (tol2 : ℚ) : ℕ → (ℚ × ℚ) → (ℚ × ℚ) → (ℚ × ℚ) → (ℚ × ℚ) →
    List (ℚ × ℚ)
  | 0, _, _, _, p3 => [p3]
  | gas + 1, p0, p1, p2, p3 =>
    if flatnessCubic p0 p1 p2 p3 < tol2 then [p3]
    else
      let m01 := midpointB p0 p1
      let m12 := midpointB p1 p2
      let m23 := midpointB p2 p3
      let m012 := midpointB m01 m12
      let m123 := midpointB m12 m23
      let m0123 := midpointB m012 m123
      subCubicGo tol2 gas p0 m01 m012 m0123 ++ subCubicGo tol2 gas m0123 m123 m23 p3

/-- The subdivide closure of _subdivide_cubic_bezier at a given depth. -/
def subdivideCubicAux (tol2 : ℚ) (p0 p1 p2 p3 : ℚ × ℚ) (depth : ℕ) :
    List (ℚ × ℚ) :=
  subCubicGo tol2 (11 - depth) p0 p1 p2 p3

/-- Renderer._subdivide_cubic_bezier. -/
def subdivide_cubic_bezier (p0 p1 p2 p3 : ℚ × ℚ) (tolerance : ℚ) :
    List (ℚ × ℚ) :=
  p0 :: subdivideCubicAux (tolerance * tolerance) p0 p1 p2 p3 0

/-- Flatness heuristic of the quadratic subdivision. -/
def flatnessQuad (p0 p1 p2 : ℚ × ℚ) : ℚ :=
  let ux := 2 * p1.1 - p0.1 - p2.1
  let uy := 2 * p1.2 - p0.2 - p2.2
  ux * ux + uy * uy

/-- Recursive core of _subdivide_quadratic_bezier over the remaining gas
    (gas = 11 - depth as in the cubic case). -/
def subQuadGo (tol2 : ℚ) : ℕ → (ℚ × ℚ) → (ℚ × ℚ) → (ℚ × ℚ) → List (ℚ × ℚ)
  | 0, _, _, p2 => [p2]
  | gas + 1, p0, p1, p2 =>
    if flatnessQuad p0 p1 p2 < tol2 then [p2]
    else
      let m01 := midpointB p0 p1
      let m12 := midpointB p1 p2
      let m012 := midpointB m01 m12
      subQuadGo tol2 gas p0 m01 m012 ++ subQuadGo tol2 gas m012 m12 p2

/-- The subdivide closure of _subdivide_quadratic_bezier at a given depth. -/
def subdivideQuadAux (tol2 : ℚ) (p0 p1 p2 : ℚ × ℚ) (depth : ℕ) :
    List (ℚ × ℚ) :=
  subQuadGo tol2 (11 - depth) p0 p1 p2

/-- Renderer._subdivide_quadratic_bezier. -/
def subdivide_quadratic_bezier (p0 p1 p2 : ℚ × ℚ) (tolerance : ℚ) :
    List (ℚ × ℚ) :=
  p0 :: subdivideQuadAux (tolerance * tolerance) p0 p1 p2 0

/-! ## Concrete instantiations used by closed theorems

These are test inputs, not part of the embedding: a transcendental kit
returning zero (no theorem evaluates a transcendental) and external
rasterizers that leave the buffer untouched. -/

def constPyMath : PyMath :=
  { radians := fun _ => 0, degrees := fun _ => 0,
    cos := fun _ => 0, sin := fun _ => 0, tan := fun _ => 0 }

def noDrawFn : NodeLoc → RState → Buffer × Bool := fun _ s => (s.buffer, true)

def constExt : RenderExt :=
  { pm := constPyMath,
    draw_circle := noDrawFn, draw_ellipse := noDrawFn, draw_line := noDrawFn,
    draw_polyline := noDrawFn, draw_path := noDrawFn,
    parse_clip := fun _ _ => none }

/-! ## Theorems -/

/-- C7: composing affine matrices corresponds to composing the point maps:
    transforming a point by A.multiply(B) equals transforming it by B and
    then by A.  Exact over the rational model, hence within any
    floating-point tolerance. -/
theorem claim_C7_multiply_compose (A B : TransformMatrix) (x y : ℚ) :
    (A.multiply B).transform_point x y =
      A.transform_point (B.transform_point x y).1 (B.transform_point x y).2 := by
  simp only [TransformMatrix.multiply, TransformMatrix.transform_point, Prod.mk.injEq]
  constructor <;> ring

/-- C5: inverse() returns the identity matrix when the determinant is
    within 1e-10 of zero, and otherwise an exact inverse: mapping a point
    forward and then through the inverse returns the point. -/
theorem claim_C5_inverse_graceful (m : TransformMatrix) :
    (|m.det| < 1 / 10 ^ 10 → m.inverse = TransformMatrix.identityM) ∧
    (1 / 10 ^ 10 ≤ |m.det| → ∀ x y : ℚ,
      m.inverse.transform_point (m.transform_point x y).1 (m.transform_point x y).2
        = (x, y)) := by
  constructor
  · intro h
    simp only [TransformMatrix.inverse]
    rw [if_pos (by simpa [TransformMatrix.det] using h)]
  · intro h x y
    have hd : m.a * m.d - m.b * m.c ≠ 0 := by
      have h0 : (0 : ℚ) < |m.det| := lt_of_lt_of_le (by norm_num) h
      simpa [TransformMatrix.det, abs_pos] using h0
    simp only [TransformMatrix.inverse, TransformMatrix.transform_point]
    rw [if_neg (by simpa [TransformMatrix.det] using not_lt.mpr h)]
    simp only [Prod.mk.injEq]
    constructor <;> (field_simp; ring)

/-- Witness for C5 at concrete inputs: a singular translation-only matrix
    inverts to the identity; a scale-and-translate matrix round-trips the
    point (9, 11). -/
theorem claim_C5_witness :
    (TransformMatrix.inverse ⟨0, 0, 0, 0, 5, 7⟩ = TransformMatrix.identityM) ∧
    ((⟨2, 0, 0, 2, 3, 4⟩ : TransformMatrix).inverse.transform_point
      ((⟨2, 0, 0, 2, 3, 4⟩ : TransformMatrix).transform_point 9 11).1
      ((⟨2, 0, 0, 2, 3, 4⟩ : TransformMatrix).transform_point 9 11).2 = (9, 11)) :=
  ⟨(claim_C5_inverse_graceful ⟨0, 0, 0, 0, 5, 7⟩).1 (by norm_num [TransformMatrix.det]),
   (claim_C5_inverse_graceful ⟨2, 0, 0, 2, 3, 4⟩).2
     (by norm_num [TransformMatrix.det]) 9 11⟩

/-- C6: a 50 by 50 root with viewBox 0 0 100 100 and the default
    preserveAspectRatio yields uniform scale one half with zero offsets,
    and document point (50, 50) maps to device point (25, 25). -/
theorem claim_C6_viewbox_mapping :
    (extract_viewport_info constPyMath
        (.mk "svg" [("width", "50"), ("height", "50"), ("viewBox", "0 0 100 100")] [])).scale_x
        = 1 / 2 ∧
    (extract_viewport_info constPyMath
        (.mk "svg" [("width", "50"), ("height", "50"), ("viewBox", "0 0 100 100")] [])).scale_y
        = 1 / 2 ∧
    (extract_viewport_info constPyMath
        (.mk "svg" [("width", "50"), ("height", "50"), ("viewBox", "0 0 100 100")] [])).offset_x
        = 0 ∧
    (extract_viewport_info constPyMath
        (.mk "svg" [("width", "50"), ("height", "50"), ("viewBox", "0 0 100 100")] [])).offset_y
        = 0 ∧
    svgTransformPoint
      (extract_viewport_info constPyMath
        (.mk "svg" [("width", "50"), ("height", "50"), ("viewBox", "0 0 100 100")] []))
      50 50 = (25, 25) := by
  with_unfolding_all decide

/-- C4 counterexample: the claim says a percent value with unit_type angle
    passes through unchanged, but normalize_unit maps 50 percent to 180
    (the value over 100 times 360), not 50. -/
theorem claim_C4_counterexample :
    normalize_unit constPyMath 100 "50%" "angle" none none none none = 180 ∧
    normalize_unit constPyMath 100 "50%" "angle" none none none none ≠ 50 := by
  with_unfolding_all decide

/-- C4 as amended: for a value parsing to (v, percent), unit_type angle
    yields v over 100 times 360, and unit_type length with both viewport
    dimensions yields v over 100 times the average of the two. -/
theorem claim_C4_percent_units (pm : PyMath) (fuel : ℕ) (s : String) (v : ℚ)
    (h : parse_number_with_unit s = (v, "%")) :
    (∀ vw vh fs pfs : Option ℚ,
      normalize_unit pm (fuel + 1) s "angle" vw vh fs pfs = v / 100 * 360) ∧
    (∀ (fs pfs : Option ℚ) (w hgt : ℚ),
      normalize_unit pm (fuel + 1) s "length" (some w) (some hgt) fs pfs
        = v / 100 * ((w + hgt) / 2)) := by
  constructor <;> intros <;> simp +decide [normalize_unit, h, lowerC, strOf]

/-- Witness for C4 at the literal "50%". -/
theorem claim_C4_witness :
    normalize_unit constPyMath 100 "50%" "angle" none none none none
        = 50 / 100 * 360 ∧
    normalize_unit constPyMath 100 "50%" "length" (some 30) (some 10) none none
        = 50 / 100 * ((30 + 10) / 2) :=
  ⟨(claim_C4_percent_units constPyMath 99 "50%" 50
      (by with_unfolding_all decide)).1 none none none none,
   (claim_C4_percent_units constPyMath 99 "50%" 50
      (by with_unfolding_all decide)).2 none none 30 10⟩

def treeOfPState : PState → NodeT
  | .active cur => closeAll cur
  | .closed t => t

def depthOfPState : PState → ℕ
  | .active cur => cur.frames.length + 1
  | .closed _ => 0

theorem countNodesL_eq_sum (l : List NodeT) :
    countNodesL l = (l.map countNodes).sum := by
  induction l with
  | nil => rfl
  | cons n ns ih => simp [countNodesL, ih]

theorem countNodesL_reverse (l : List NodeT) :
    countNodesL l.reverse = countNodesL l := by
  simp [countNodesL_eq_sum, List.sum_reverse]

theorem countNodes_closeCursor (c : PCursor) :
    countNodes (closeCursor c) = 1 + countNodesL c.childrenRev := by
  simp [closeCursor, countNodes, countNodesL_reverse]

theorem countNodes_closeAllAux (fs : List PFrame) (n : NodeT) :
    countNodes (closeAllAux n fs)
      = countNodes n + (fs.map (fun f => 1 + countNodesL f.childrenRev)).sum := by
  induction fs generalizing n with
  | nil => simp [closeAllAux]
  | cons f rest ih =>
    rw [closeAllAux, ih]
    rw [countNodes_closeCursor]
    simp [intoParent, countNodesL]
    omega

/-- C2 counterexample: processing the mismatched closing fragment of foo
    does change the tree (a new node appears under g), contradicting the
    silently-ignored behavior of the claim. -/
theorem claim_C2_counterexample :
    parse_svg_contents ["<svg>", "<g>", "</foo>"]
      ≠ parse_svg_contents ["<svg>", "<g>"] ∧
    (parse_svg_contents ["<svg>", "<g>", "</foo>"]).map countNodes = some 3 ∧
    (parse_svg_contents ["<svg>", "<g>"]).map countNodes = some 2 := by
  have h3 : (parse_svg_contents ["<svg>", "<g>", "</foo>"]).map countNodes = some 3 := by
    with_unfolding_all decide
  have h2 : (parse_svg_contents ["<svg>", "<g>"]).map countNodes = some 2 := by
    with_unfolding_all decide
  refine ⟨fun h => ?_, h3, h2⟩
  rw [h, h2] at h3
  simp at h3

/-- C2 as amended: a closing fragment whose tag matches the cursor moves
    the cursor to the parent without changing the tree under construction;
    a closing fragment whose tag does not match (and is not self-closing)
    is treated like an opening fragment: the node count grows by one and
    the cursor descends into a fresh node carrying the closing tag name. -/
theorem claim_C2_close_tag_behavior (cur : PCursor) (e : String)
    (hterm : is_terminator e = true) :
    (cur.tag = get_tag e →
      treeOfPState (parseStep (.active cur) e) = closeAll cur ∧
      depthOfPState (parseStep (.active cur) e) = cur.frames.length) ∧
    (cur.tag ≠ get_tag e → is_self_terminating e = false →
      countNodes (treeOfPState (parseStep (.active cur) e))
        = countNodes (closeAll cur) + 1 ∧
      depthOfPState (parseStep (.active cur) e) = cur.frames.length + 2 ∧
      ∃ cur2, parseStep (.active cur) e = .active cur2 ∧
        cur2.tag = get_tag e ∧ cur2.childrenRev = [] ∧
        cur2.frames.length = cur.frames.length + 1) := by
  constructor
  · intro heq
    rcases hf : cur.frames with _ | ⟨f, rest⟩
    · simp [parseStep, hterm, heq, treeOfPState, depthOfPState, closeAll, hf,
        closeAllAux]
    · simp only [parseStep, hterm, heq, treeOfPState, depthOfPState, closeAll, hf,
        closeAllAux, if_pos, and_self, ite_true]
      constructor
      · rfl
      · simp
  · intro hne hst
    have hcond : ¬ (is_terminator e = true ∧ cur.tag = get_tag e) := by
      intro hc
      exact hne hc.2
    simp only [parseStep, hcond, if_false, hst, Bool.false_eq_true]
    refine ⟨?_, by simp [depthOfPState], ⟨_, rfl, rfl, rfl, by simp⟩⟩
    simp only [treeOfPState, closeAll, countNodes_closeAllAux, countNodes_closeCursor]
    simp [closeCursor, countNodes, countNodesL]
    omega

theorem claim_C2_witness :
    is_terminator "</g>" = true ∧
    (((PCursor.mk "g" [] [] []).tag = get_tag "</g>" →
       treeOfPState (parseStep (.active (PCursor.mk "g" [] [] [])) "</g>")
         = closeAll (PCursor.mk "g" [] [] []) ∧
       depthOfPState (parseStep (.active (PCursor.mk "g" [] [] [])) "</g>")
         = (PCursor.mk "g" [] [] []).frames.length) ∧
     ((PCursor.mk "g" [] [] []).tag ≠ get_tag "</g>" →
       is_self_terminating "</g>" = false →
       countNodes (treeOfPState
           (parseStep (.active (PCursor.mk "g" [] [] [])) "</g>"))
         = countNodes (closeAll (PCursor.mk "g" [] [] [])) + 1 ∧
       depthOfPState (parseStep (.active (PCursor.mk "g" [] [] [])) "</g>")
         = (PCursor.mk "g" [] [] []).frames.length + 2 ∧
       ∃ cur2, parseStep (.active (PCursor.mk "g" [] [] [])) "</g>"
           = .active cur2 ∧
         cur2.tag = get_tag "</g>" ∧ cur2.childrenRev = [] ∧
         cur2.frames.length = (PCursor.mk "g" [] [] []).frames.length + 1)) :=
  ⟨by with_unfolding_all decide,
   claim_C2_close_tag_behavior (PCursor.mk "g" [] [] []) "</g>"
     (by with_unfolding_all decide)⟩

/-- C1 counterexample: after rendering an empty group from a context whose
    accumulated transform is translate(10, 0), the context in effect for
    the group's later siblings does not carry that transform any more, so
    rendering the group subtree did change an ancestor's context. -/
theorem claim_C1_counterexample :
    (get_current_context
        (render_node constExt 5 [] (.mk "g" [] [])
          (setTopCtx
            (renderer_init ⟨none, 20, 20, none, 1, 1, 0, 0⟩ none none
              (255, 255, 255) false)
            (fun c =>
              { c with transform := TransformMatrix.translateM 10 0 }))).1).transform
      ≠ TransformMatrix.translateM 10 0 := by
  with_unfolding_all decide

/-- C1: pushing does copy every inherited field (first conjunct), but the
    group handler does not restore the pre-group transform for later
    siblings: after rendering an empty group from a context whose
    accumulated transform is translate(10, 0), the context in effect is
    the identity, not the original translation (the transform saved on
    entering the group is never written back; the handler assigns the
    identity instead). -/
theorem claim_C1_group_context :
    (∀ c : DrawingContext, c.push = c) ∧
    ((render_node constExt 5 []
        (.mk "g" [] [])
        (setTopCtx
          (renderer_init ⟨none, 20, 20, none, 1, 1, 0, 0⟩ none none (255, 255, 255) false)
          (fun c => { c with transform := TransformMatrix.translateM 10 0 }))).2 = true ∧
     (get_current_context
        (render_node constExt 5 []
          (.mk "g" [] [])
          (setTopCtx
            (renderer_init ⟨none, 20, 20, none, 1, 1, 0, 0⟩ none none (255, 255, 255) false)
            (fun c => { c with transform := TransformMatrix.translateM 10 0 }))).1).transform
       = TransformMatrix.identityM ∧
     TransformMatrix.identityM ≠ TransformMatrix.translateM 10 0) := by
  constructor
  · intro c
    rfl
  · with_unfolding_all decide

/-! Unfolding shapes and length bounds for the Bezier subdivisions. -/

theorem subCubicGo_length (tol2 : ℚ) (gas : ℕ) :
    ∀ p0 p1 p2 p3 : ℚ × ℚ, (subCubicGo tol2 gas p0 p1 p2 p3).length ≤ 2 ^ gas := by
  induction gas with
  | zero => intro p0 p1 p2 p3; simp [subCubicGo]
  | succ gas ih =>
    intro p0 p1 p2 p3
    rw [subCubicGo]
    by_cases hflat : flatnessCubic p0 p1 p2 p3 < tol2
    · rw [if_pos hflat]
      have hp : 1 ≤ 2 ^ (gas + 1) := Nat.one_le_two_pow
      simpa using hp
    · rw [if_neg hflat]
      simp only [List.length_append]
      have h1 := ih p0 (midpointB p0 p1) (midpointB (midpointB p0 p1) (midpointB p1 p2))
        (midpointB (midpointB (midpointB p0 p1) (midpointB p1 p2))
          (midpointB (midpointB p1 p2) (midpointB p2 p3)))
      have h2 := ih
        (midpointB (midpointB (midpointB p0 p1) (midpointB p1 p2))
          (midpointB (midpointB p1 p2) (midpointB p2 p3)))
        (midpointB (midpointB p1 p2) (midpointB p2 p3)) (midpointB p2 p3) p3
      have hpow : (2 : ℕ) ^ (gas + 1) = 2 ^ gas + 2 ^ gas := by
        rw [pow_succ]; omega
      omega

theorem subCubicGo_flat (tol2 : ℚ) (gas : ℕ) (p0 p1 p2 p3 : ℚ × ℚ)
    (hflat : flatnessCubic p0 p1 p2 p3 < tol2) :
    subCubicGo tol2 gas p0 p1 p2 p3 = [p3] := by
  cases gas with
  | zero => rfl
  | succ gas => rw [subCubicGo, if_pos hflat]

theorem subQuadGo_length (tol2 : ℚ) (gas : ℕ) :
    ∀ p0 p1 p2 : ℚ × ℚ, (subQuadGo tol2 gas p0 p1 p2).length ≤ 2 ^ gas := by
  induction gas with
  | zero => intro p0 p1 p2; simp [subQuadGo]
  | succ gas ih =>
    intro p0 p1 p2
    rw [subQuadGo]
    by_cases hflat : flatnessQuad p0 p1 p2 < tol2
    · rw [if_pos hflat]
      have hp : 1 ≤ 2 ^ (gas + 1) := Nat.one_le_two_pow
      simpa using hp
    · rw [if_neg hflat]
      simp only [List.length_append]
      have h1 := ih p0 (midpointB p0 p1) (midpointB (midpointB p0 p1) (midpointB p1 p2))
      have h2 := ih (midpointB (midpointB p0 p1) (midpointB p1 p2)) (midpointB p1 p2) p2
      have hpow : (2 : ℕ) ^ (gas + 1) = 2 ^ gas + 2 ^ gas := by
        rw [pow_succ]; omega
      omega

theorem subQuadGo_flat (tol2 : ℚ) (gas : ℕ) (p0 p1 p2 : ℚ × ℚ)
    (hflat : flatnessQuad p0 p1 p2 < tol2) :
    subQuadGo tol2 gas p0 p1 p2 = [p2] := by
  cases gas with
  | zero => rfl
  | succ gas => rw [subQuadGo, if_pos hflat]

/-- C8: the subdivision recursions terminate with a finite point list of at
    most 2 to the 11 plus one points (the initial point plus at most 2 to
    the 11 emitted endpoints); a segment whose flatness measure is below
    the squared tolerance is emitted without any subdivision; and past the
    fixed depth cap of 10 a call emits immediately regardless of flatness,
    so subdivision only ever happens at depths 0 through 10. -/
theorem claim_C8_bezier_subdivision :
    (∀ (p0 p1 p2 p3 : ℚ × ℚ) (tol : ℚ),
      (subdivide_cubic_bezier p0 p1 p2 p3 tol).length ≤ 2 ^ 11 + 1) ∧
    (∀ (p0 p1 p2 p3 : ℚ × ℚ) (tol : ℚ),
      flatnessCubic p0 p1 p2 p3 < tol * tol →
      subdivide_cubic_bezier p0 p1 p2 p3 tol = [p0, p3]) ∧
    (∀ (tol2 : ℚ) (p0 p1 p2 p3 : ℚ × ℚ) (d : ℕ), 10 < d →
      subdivideCubicAux tol2 p0 p1 p2 p3 d = [p3]) ∧
    (∀ (p0 p1 p2 : ℚ × ℚ) (tol : ℚ),
      (subdivide_quadratic_bezier p0 p1 p2 tol).length ≤ 2 ^ 11 + 1) ∧
    (∀ (p0 p1 p2 : ℚ × ℚ) (tol : ℚ),
      flatnessQuad p0 p1 p2 < tol * tol →
      subdivide_quadratic_bezier p0 p1 p2 tol = [p0, p2]) ∧
    (∀ (tol2 : ℚ) (p0 p1 p2 : ℚ × ℚ) (d : ℕ), 10 < d →
      subdivideQuadAux tol2 p0 p1 p2 d = [p2]) := by
  refine ⟨?_, ?_, ?_, ?_, ?_, ?_⟩
  · intro p0 p1 p2 p3 tol
    have h := subCubicGo_length (tol * tol) 11 p0 p1 p2 p3
    simp only [subdivide_cubic_bezier, subdivideCubicAux, List.length_cons]
    norm_num at h ⊢
    omega
  · intro p0 p1 p2 p3 tol hflat
    rw [subdivide_cubic_bezier, subdivideCubicAux,
      subCubicGo_flat (tol * tol) _ p0 p1 p2 p3 hflat]
  · intro tol2 p0 p1 p2 p3 d hd
    have hz : 11 - d = 0 := by omega
    rw [subdivideCubicAux, hz]
    rfl
  · intro p0 p1 p2 tol
    have h := subQuadGo_length (tol * tol) 11 p0 p1 p2
    simp only [subdivide_quadratic_bezier, subdivideQuadAux, List.length_cons]
    norm_num at h ⊢
    omega
  · intro p0 p1 p2 tol hflat
    rw [subdivide_quadratic_bezier, subdivideQuadAux,
      subQuadGo_flat (tol * tol) _ p0 p1 p2 hflat]
  · intro tol2 p0 p1 p2 d hd
    have hz : 11 - d = 0 := by omega
    rw [subdivideQuadAux, hz]
    rfl

/-- Witness for C8 at concrete inputs with the default tolerance 0.5:
    a straight-line cubic is emitted at once, a bent quadratic still yields
    a bounded list, and a depth-capped call emits immediately. -/
theorem claim_C8_witness :
    subdivide_cubic_bezier (0, 0) (1, 0) (2, 0) (3, 0) (1/2) = [(0, 0), (3, 0)] ∧
    (subdivide_quadratic_bezier (0, 0) (50, 100) (100, 0) (1/2)).length ≤ 2 ^ 11 + 1 ∧
    subdivideCubicAux (1/4) (0, 0) (9, 9) (17, 3) (30, 0) 11 = [(30, 0)] ∧
    subdivideQuadAux (1/4) (0, 0) (9, 9) (30, 0) 11 = [(30, 0)] :=
  ⟨(claim_C8_bezier_subdivision.2.1) (0, 0) (1, 0) (2, 0) (3, 0) (1/2)
      (by norm_num [flatnessCubic]),
   (claim_C8_bezier_subdivision.2.2.2.1) (0, 0) (50, 100) (100, 0) (1/2),
   (claim_C8_bezier_subdivision.2.2.1) (1/4) (0, 0) (9, 9) (17, 3) (30, 0) 11
      (by omega),
   (claim_C8_bezier_subdivision.2.2.2.2.2) (1/4) (0, 0) (9, 9) (30, 0) 11
      (by omega)⟩

/-! State combinator facts used by the walk inductions. -/

theorem setTopCtx_stack_length (s : RState) (f : DrawingContext → DrawingContext) :
    (setTopCtx s f).stack.length = s.stack.length := by
  rcases h : s.stack with _ | ⟨c, r⟩ <;> simp [setTopCtx, h]

theorem setTopCtx_svg (s : RState) (f : DrawingContext → DrawingContext) :
    (setTopCtx s f).svg = s.svg := by
  rcases h : s.stack with _ | ⟨c, r⟩ <;> simp [setTopCtx, h]

theorem setSecondCtx_stack_length (s : RState) (f : DrawingContext → DrawingContext) :
    (setSecondCtx s f).stack.length = s.stack.length := by
  rcases h : s.stack with _ | ⟨c, _ | ⟨d, r⟩⟩ <;> simp [setSecondCtx, h]

theorem setSecondCtx_svg (s : RState) (f : DrawingContext → DrawingContext) :
    (setSecondCtx s f).svg = s.svg := by
  rcases h : s.stack with _ | ⟨c, _ | ⟨d, r⟩⟩ <;> simp [setSecondCtx, h]

theorem push_context_stack_length (s : RState) :
    (push_context s).stack.length = s.stack.length + 1 := by
  simp [push_context]

theorem push_context_svg (s : RState) : (push_context s).svg = s.svg := by
  simp [push_context]

theorem pop_context_svg (s : RState) : (pop_context s).svg = s.svg := by
  by_cases h : 1 < s.stack.length <;> simp [pop_context, h]

theorem pop_context_stack_length (s : RState) :
    (pop_context s).stack.length
      = if 1 < s.stack.length then s.stack.length - 1 else s.stack.length := by
  by_cases h : 1 < s.stack.length <;> simp [pop_context, h]

theorem pop_context_stack_ne (s : RState) (h : s.stack ≠ []) :
    (pop_context s).stack ≠ [] := by
  by_cases h1 : 1 < s.stack.length
  · simp only [pop_context, h1, if_true]
    rcases hs : s.stack with _ | ⟨c, r⟩
    · exact absurd hs h
    · rw [hs] at h1
      simp at h1 ⊢
      intro hr
      rw [hr] at h1
      simp at h1
  · simpa [pop_context, h1] using h

theorem stack_ne_of_length (s : RState) (h : s.stack.length ≠ 0) : s.stack ≠ [] := by
  intro he
  rw [he] at h
  exact h rfl

theorem length_ne_zero_of_stack_ne (s : RState) (h : s.stack ≠ []) :
    s.stack.length ≠ 0 := by
  rcases hs : s.stack with _ | ⟨c, r⟩
  · exact absurd hs h
  · simp [hs]

theorem rnAttrs_stack_length (nodeL : NodeLoc) (s : RState) :
    (rnAttrs nodeL s).1.stack.length = s.stack.length := by
  simp [rnAttrs, setTopCtx_stack_length]

theorem rnAttrs_svg (nodeL : NodeLoc) (s : RState) :
    (rnAttrs nodeL s).1.svg = s.svg := by
  simp [rnAttrs, setTopCtx_svg]

theorem rnTransformNonG_stack_length (pm : PyMath) (nodeL : NodeLoc) (ts : String)
    (s : RState) :
    (rnTransformNonG pm nodeL ts s).1.stack.length = s.stack.length + 1 := by
  rw [rnTransformNonG]
  split
  · rw [rnAttrs_stack_length, push_context_stack_length]
  · rw [setTopCtx_stack_length, rnAttrs_stack_length, push_context_stack_length]

theorem rnTransformNonG_svg (pm : PyMath) (nodeL : NodeLoc) (ts : String)
    (s : RState) : (rnTransformNonG pm nodeL ts s).1.svg = s.svg := by
  rw [rnTransformNonG]
  split
  · rw [rnAttrs_svg, push_context_svg]
  · rw [setTopCtx_svg, rnAttrs_svg, push_context_svg]

theorem rnTransformG_stack_length (pm : PyMath) (ts : String) (s : RState) :
    (rnTransformG pm ts s).1.stack.length = s.stack.length := by
  rw [rnTransformG]
  rw [setTopCtx_stack_length]

theorem rnTransformG_svg (pm : PyMath) (ts : String) (s : RState) :
    (rnTransformG pm ts s).1.svg = s.svg := by
  rw [rnTransformG]
  rw [setTopCtx_svg]

theorem rnClip_stack_length (ext : RenderExt) (cps : Option String) (s : RState) :
    (rnClip ext cps s).stack.length = s.stack.length := by
  rw [rnClip]
  split
  · split
    · rw [setTopCtx_stack_length]
    · rfl
  · rfl

theorem rnClip_svg (ext : RenderExt) (cps : Option String) (s : RState) :
    (rnClip ext cps s).svg = s.svg := by
  rw [rnClip]
  split
  · split
    · rw [setTopCtx_svg]
    · rfl
  · rfl

/-- Property carried through the walk inductions: the stack stays
    non-empty, and a successful call preserves the stack length. -/
def StackOk (recurse : RenderRec) : Prop :=
  ∀ (anc : List AttrsD) (node : NodeT) (s : RState), s.stack ≠ [] →
    (recurse anc node s).1.stack ≠ [] ∧
    ((recurse anc node s).2 = true →
      (recurse anc node s).1.stack.length = s.stack.length)

/-- Stack discipline of the per-child fold inside the node walk, assuming
    it for the recursive calls it makes. -/
theorem foldChildren_stack (recurse : RenderRec) (anc2 : List AttrsD)
    (IH : StackOk recurse) :
    ∀ (cs : List NodeT) (p : RState × Bool), p.1.stack ≠ [] →
      (cs.foldl (fun p child =>
        if p.2 then recurse anc2 child p.1 else p) p).1.stack ≠ [] ∧
      ((cs.foldl (fun p child =>
          if p.2 then recurse anc2 child p.1 else p) p).2 = true →
        (cs.foldl (fun p child =>
          if p.2 then recurse anc2 child p.1 else p) p).1.stack.length
            = p.1.stack.length ∧ p.2 = true) := by
  intro cs
  induction cs with
  | nil =>
    intro p hne
    exact ⟨hne, fun h2 => ⟨rfl, h2⟩⟩
  | cons c cs ih =>
    intro p hne
    rw [List.foldl_cons]
    by_cases hp2 : p.2 = true
    · have hstep : (if p.2 then recurse anc2 c p.1 else p)
          = recurse anc2 c p.1 := by
        rw [if_pos hp2]
      rw [hstep]
      have hrec := IH anc2 c p.1 hne
      have hfold := ih (recurse anc2 c p.1) hrec.1
      refine ⟨hfold.1, fun hok => ?_⟩
      have h2 := hfold.2 hok
      exact ⟨by rw [h2.1, hrec.2 h2.2], hp2⟩
    · have hstep : (if p.2 then recurse anc2 c p.1 else p) = p := by
        rw [if_neg hp2]
      rw [hstep]
      have hfold := ih p hne
      refine ⟨hfold.1, fun hok => ?_⟩
      exact absurd (hfold.2 hok).2 hp2

theorem push_context_stack_ne (s : RState) : (push_context s).stack ≠ [] := by
  simp [push_context]

/-- Stack discipline of the use handler, assuming it for the recursion. -/
theorem rnUse_stack (ext : RenderExt) (recurse : RenderRec) (nodeL : NodeLoc)
    (IH : StackOk recurse) (sB : RState) (hne : sB.stack ≠ []) :
    (rnUse ext recurse nodeL sB).1.stack ≠ [] ∧
    ((rnUse ext recurse nodeL sB).2 = true →
      (rnUse ext recurse nodeL sB).1.stack.length = sB.stack.length) := by
  have hlen1 : 1 ≤ sB.stack.length := by
    have := length_ne_zero_of_stack_ne sB hne
    omega
  rw [rnUse]
  generalize (if truthyO (get_attribute nodeL "href" none false) then
      get_attribute nodeL "href" none false
    else get_attribute nodeL "xlink:href" none false) = href
  by_cases htr : truthyO href = true
  case neg =>
    rw [if_pos htr]
    exact ⟨hne, fun _ => rfl⟩
  case pos =>
    rw [if_neg (fun hcon => hcon htr)]
    dsimp only
    split
    · exact ⟨hne, fun _ => rfl⟩
    · next tAnc target _ =>
      have hsu2 : ∀ su2 : RState, su2.stack.length = sB.stack.length + 1 →
          (recurse tAnc target su2).1.stack ≠ [] ∧
          ((if ¬ (recurse tAnc target su2).2 = true
            then ((recurse tAnc target su2).1, false)
            else (pop_context (recurse tAnc target su2).1, true)).1.stack ≠ [] ∧
           ((if ¬ (recurse tAnc target su2).2 = true
             then ((recurse tAnc target su2).1, false)
             else (pop_context (recurse tAnc target su2).1, true)).2 = true →
            (if ¬ (recurse tAnc target su2).2 = true
             then ((recurse tAnc target su2).1, false)
             else (pop_context (recurse tAnc target su2).1, true)).1.stack.length
              = sB.stack.length)) := by
        intro su2 hlen
        have hrec := IH tAnc target su2 (stack_ne_of_length _ (by omega))
        refine ⟨hrec.1, ?_⟩
        by_cases hpu : (recurse tAnc target su2).2 = true
        · rw [if_neg (fun hcon => hcon hpu)]
          have hplen := hrec.2 hpu
          rw [hlen] at hplen
          refine ⟨pop_context_stack_ne _ hrec.1, fun _ => ?_⟩
          rw [pop_context_stack_length, hplen, if_pos (by omega)]
          omega
        · rw [if_pos hpu]
          exact ⟨hrec.1, fun hok => Bool.noConfusion hok⟩
      split
      · exact (hsu2 _ (by rw [setTopCtx_stack_length, push_context_stack_length])).2
      · exact (hsu2 _ (by rw [push_context_stack_length])).2

/-- Stack discipline of the tag dispatch, assuming it for the recursion. -/
theorem rnDispatch_stack (ext : RenderExt) (recurse : RenderRec)
    (anc : List AttrsD) (node : NodeT) (IH : StackOk recurse) (sB : RState)
    (hne : sB.stack ≠ []) :
    (rnDispatch ext recurse anc node sB).1.stack ≠ [] ∧
    ((rnDispatch ext recurse anc node sB).2 = true →
      (rnDispatch ext recurse anc node sB).1.stack.length = sB.stack.length) := by
  have hlen1 : 1 ≤ sB.stack.length := by
    have := length_ne_zero_of_stack_ne sB hne
    omega
  rw [rnDispatch]
  by_cases hg : node.tag = "g"
  · rw [if_pos hg]
    have hfold := foldChildren_stack recurse (node.attrs :: anc) IH node.children
      (push_context sB, true) (push_context_stack_ne sB)
    by_cases hp : (node.children.foldl
        (fun p child => if p.2 then recurse (node.attrs :: anc) child p.1 else p)
        (push_context sB, true)).2 = true
    · rw [if_neg (fun hcon => hcon hp)]
      have hplen := (hfold.2 hp).1
      rw [push_context_stack_length] at hplen
      constructor
      · apply pop_context_stack_ne
        apply stack_ne_of_length
        rw [setSecondCtx_stack_length, hplen]
        omega
      · intro _
        rw [pop_context_stack_length, setSecondCtx_stack_length, hplen]
        rw [if_pos (by omega)]
        omega
    · rw [if_pos hp]
      exact ⟨hfold.1, fun hok => absurd hok hp⟩
  · rw [if_neg hg]
    by_cases h2 : node.tag = "rect"
    · rw [if_pos h2]
      exact ⟨hne, fun _ => rfl⟩
    · rw [if_neg h2]
      by_cases h3 : node.tag = "circle"
      · rw [if_pos h3]
        exact ⟨hne, fun _ => rfl⟩
      · rw [if_neg h3]
        by_cases h4 : node.tag = "ellipse"
        · rw [if_pos h4]
          exact ⟨hne, fun _ => rfl⟩
        · rw [if_neg h4]
          by_cases h5 : node.tag = "line"
          · rw [if_pos h5]
            exact ⟨hne, fun _ => rfl⟩
          · rw [if_neg h5]
            by_cases h6 : node.tag = "polyline"
            · rw [if_pos h6]
              exact ⟨hne, fun _ => rfl⟩
            · rw [if_neg h6]
              by_cases h7 : node.tag = "path"
              · rw [if_pos h7]
                exact ⟨hne, fun _ => rfl⟩
              · rw [if_neg h7]
                by_cases h8 : node.tag = "use"
                · rw [if_pos h8]
                  exact rnUse_stack ext recurse ⟨node.attrs, anc⟩ IH sB hne
                · rw [if_neg h8]
                  exact ⟨hne, fun _ => rfl⟩

theorem rnAfterChildren_stack (pE : RState × Bool) :
    (rnAfterChildren pE).1.stack = pE.1.stack ∧
    ((rnAfterChildren pE).2 = true → pE.2 = true) := by
  rw [rnAfterChildren]
  by_cases hp : pE.2 = true
  · rw [if_neg (fun hcon => hcon hp)]
    exact ⟨rfl, fun _ => hp⟩
  · rw [if_pos hp]
    exact ⟨rfl, fun hok => Bool.noConfusion hok⟩

/-- Stack discipline of the finish phase, assuming it for the recursion. -/
theorem rnFinish_stack (ext : RenderExt) (recurse : RenderRec) (anc : List AttrsD)
    (node : NodeT) (IH : StackOk recurse) (sD : RState) (hne : sD.stack ≠ []) :
    (rnFinish ext recurse anc node sD).1.stack ≠ [] ∧
    ((rnFinish ext recurse anc node sD).2 = true →
      (rnFinish ext recurse anc node sD).1.stack.length = sD.stack.length) := by
  rw [rnFinish]
  by_cases hgtag : node.tag ≠ "g"
  · rw [if_pos hgtag]
    have hfold := foldChildren_stack recurse (node.attrs :: anc) IH node.children
      (sD, true) hne
    have hac := rnAfterChildren_stack (node.children.foldl
      (fun p child => if p.2 then recurse (node.attrs :: anc) child p.1 else p)
      (sD, true))
    refine ⟨by rw [hac.1]; exact hfold.1, fun hok => ?_⟩
    rw [hac.1]
    exact (hfold.2 (hac.2 hok)).1
  · rw [if_neg hgtag]
    have hac := rnAfterChildren_stack (sD, true)
    exact ⟨by rw [hac.1]; exact hne, fun _ => by rw [hac.1]⟩

/-- Stack discipline of the walk tail, assuming it for the recursion. -/
theorem rnTail_stack (ext : RenderExt) (recurse : RenderRec) (anc : List AttrsD)
    (node : NodeT) (pushedT : Bool) (IH : StackOk recurse) (sB : RState)
    (hne : sB.stack ≠ []) (hp2 : pushedT = true → 2 ≤ sB.stack.length) :
    (rnTail ext recurse anc node pushedT sB).1.stack ≠ [] ∧
    ((rnTail ext recurse anc node pushedT sB).2 = true →
      (rnTail ext recurse anc node pushedT sB).1.stack.length
        = sB.stack.length - (if pushedT then 1 else 0)) := by
  rw [rnTail]
  have hd := rnDispatch_stack ext recurse anc node IH sB hne
  by_cases hdok : (rnDispatch ext recurse anc node sB).2 = true
  · rw [if_neg (fun hcon => hcon hdok)]
    have hdlen := hd.2 hdok
    have hsD : (if pushedT then pop_context (rnDispatch ext recurse anc node sB).1
          else (rnDispatch ext recurse anc node sB).1).stack.length
          = sB.stack.length - (if pushedT then 1 else 0) ∧
        (if pushedT then pop_context (rnDispatch ext recurse anc node sB).1
          else (rnDispatch ext recurse anc node sB).1).stack ≠ [] := by
      cases hpt : pushedT with
      | false =>
        simp only [Bool.false_eq_true, if_false]
        refine ⟨?_, hd.1⟩
        rw [hdlen]
        omega
      | true =>
        simp only [if_true]
        have h2 := hp2 hpt
        constructor
        · rw [pop_context_stack_length, hdlen, if_pos (by omega)]
        · exact pop_context_stack_ne _ hd.1
    have hfin := rnFinish_stack ext recurse anc node IH _ hsD.2
    refine ⟨hfin.1, fun hok => ?_⟩
    rw [hfin.2 hok, hsD.1]
  · rw [if_pos hdok]
    exact ⟨hd.1, fun hok => Bool.noConfusion hok⟩

/-- Stack discipline of the gate/clip/tail phase, assuming it for the
    recursion: a pushed transform context accounts for exactly one extra
    element, removed again by the matching pop inside the tail. -/
theorem rnAfterTri_stack (ext : RenderExt) (recurse : RenderRec)
    (anc : List AttrsD) (node : NodeT) (IH : StackOk recurse) (n : ℕ)
    (hn : 1 ≤ n) (tri : RState × Bool) (hne : tri.1.stack ≠ [])
    (hlen : tri.2 = true → tri.1.stack.length
      = n + (if ((get_attribute ⟨node.attrs, anc⟩ "transform" none
          false).isSome && !(node.tag == "g")) = true then 1 else 0)) :
    (rnAfterTri ext recurse anc node tri).1.stack ≠ [] ∧
    ((rnAfterTri ext recurse anc node tri).2 = true →
      (rnAfterTri ext recurse anc node tri).1.stack.length = n) := by
  rw [rnAfterTri]
  by_cases htriok : tri.2 = true
  case neg =>
    rw [if_pos htriok]
    exact ⟨hne, fun hok => Bool.noConfusion hok⟩
  case pos =>
    rw [if_neg (fun hcon => hcon htriok)]
    have hlen2 := hlen htriok
    have hClen : (rnClip ext (get_attribute ⟨node.attrs, anc⟩ "clip-path"
        none true) tri.1).stack.length
        = n + (if ((get_attribute ⟨node.attrs, anc⟩ "transform" none
            false).isSome && !(node.tag == "g")) = true then 1 else 0) := by
      rw [rnClip_stack_length, hlen2]
    have ht := rnTail_stack ext recurse anc node
      ((get_attribute ⟨node.attrs, anc⟩ "transform" none false).isSome
        && !(node.tag == "g")) IH _
      (stack_ne_of_length _ (by rw [hClen]; omega))
      (fun hpe => by rw [hClen, if_pos hpe]; omega)
    refine ⟨ht.1, fun hok => ?_⟩
    rw [ht.2 hok, hClen]
    by_cases hpe : ((get_attribute ⟨node.attrs, anc⟩ "transform" none
        false).isSome && !(node.tag == "g")) = true
    · rw [if_pos hpe]
      omega
    · rw [if_neg hpe]
      omega

/-- Stack discipline of the transform-selection/gate/tail phase, assuming
    it for the recursion. -/
theorem rnMid_stack (ext : RenderExt) (recurse : RenderRec)
    (anc : List AttrsD) (node : NodeT) (IH : StackOk recurse) (sB : RState)
    (hne : sB.stack ≠ []) :
    (rnMid ext recurse anc node sB).1.stack ≠ [] ∧
    ((rnMid ext recurse anc node sB).2 = true →
      (rnMid ext recurse anc node sB).1.stack.length = sB.stack.length) := by
  have hlen1 : 1 ≤ sB.stack.length := by
    have := length_ne_zero_of_stack_ne sB hne
    omega
  rw [rnMid]
  cases hpT : ((get_attribute ⟨node.attrs, anc⟩ "transform" none false).isSome
      && !(node.tag == "g")) with
  | true =>
    rw [if_pos (rfl : true = true)]
    refine rnAfterTri_stack ext recurse anc node IH sB.stack.length hlen1 _
      (stack_ne_of_length _
        (by rw [rnTransformNonG_stack_length]; omega))
      (fun _ => ?_)
    rw [rnTransformNonG_stack_length, hpT, if_pos (rfl : true = true)]
  | false =>
    rw [if_neg (fun hcon : false = true => Bool.noConfusion hcon)]
    by_cases hht : (get_attribute ⟨node.attrs, anc⟩ "transform" none
        false).isSome = true
    case pos =>
      rw [if_pos hht]
      refine rnAfterTri_stack ext recurse anc node IH sB.stack.length hlen1 _
        (stack_ne_of_length _
          (by rw [rnTransformG_stack_length]; omega))
        (fun _ => ?_)
      rw [rnTransformG_stack_length, hpT,
        if_neg (fun hcon => Bool.noConfusion hcon)]
      omega
    case neg =>
      rw [if_neg hht]
      refine rnAfterTri_stack ext recurse anc node IH sB.stack.length hlen1
        (sB, true) hne (fun _ => ?_)
      rw [hpT, if_neg (fun hcon => Bool.noConfusion hcon)]
      simp

/-- The walk preserves stack non-emptiness, and preserves the exact stack
    length whenever it completes without a raise. -/
theorem render_node_stackOk (ext : RenderExt) (fuel : ℕ) :
    StackOk (render_node ext fuel) := by
  induction fuel with
  | zero =>
    intro anc node s hne
    rw [render_node]
    exact ⟨hne, fun hok => Bool.noConfusion hok⟩
  | succ fuel IH =>
    intro anc node s hne
    have hlen0 := length_ne_zero_of_stack_ne s hne
    rw [render_node]
    by_cases ha : (rnAttrs ⟨node.attrs, anc⟩ s).2 = true
    case neg =>
      rw [if_pos ha]
      refine ⟨?_, fun hok => Bool.noConfusion hok⟩
      apply stack_ne_of_length
      rw [rnAttrs_stack_length]
      exact hlen0
    case pos =>
      rw [if_neg (fun hcon => hcon ha)]
      have hmid := rnMid_stack ext
        (fun anc2 nd st => render_node ext fuel anc2 nd st) anc node
        (fun anc2 nd st hst => IH anc2 nd st hst)
        (rnAttrs ⟨node.attrs, anc⟩ s).1
        (stack_ne_of_length _ (by rw [rnAttrs_stack_length]; exact hlen0))
      refine ⟨hmid.1, fun hok => ?_⟩
      rw [hmid.2 hok, rnAttrs_stack_length]

/-- Property carried through the walk inductions for determinism: the
    walk never writes the shared SVG state (it reads the tree and the
    viewBox mapping, and mutates only buffer, stack and previousStack). -/
def SvgOk (recurse : RenderRec) : Prop :=
  ∀ (anc : List AttrsD) (node : NodeT) (s : RState),
    (recurse anc node s).1.svg = s.svg

theorem foldChildren_svg (recurse : RenderRec) (anc2 : List AttrsD)
    (IH : SvgOk recurse) :
    ∀ (cs : List NodeT) (p : RState × Bool),
      (cs.foldl (fun p child =>
        if p.2 then recurse anc2 child p.1 else p) p).1.svg = p.1.svg := by
  intro cs
  induction cs with
  | nil => intro p; rfl
  | cons c cs ih =>
    intro p
    rw [List.foldl_cons]
    by_cases hp2 : p.2 = true
    · have hstep : (if p.2 then recurse anc2 c p.1 else p)
          = recurse anc2 c p.1 := by
        rw [if_pos hp2]
      rw [hstep, ih, IH]
    · have hstep : (if p.2 then recurse anc2 c p.1 else p) = p := by
        rw [if_neg hp2]
      rw [hstep, ih]

theorem rnUse_svg (ext : RenderExt) (recurse : RenderRec) (nodeL : NodeLoc)
    (IH : SvgOk recurse) (sB : RState) :
    (rnUse ext recurse nodeL sB).1.svg = sB.svg := by
  rw [rnUse]
  generalize (if truthyO (get_attribute nodeL "href" none false) then
      get_attribute nodeL "href" none false
    else get_attribute nodeL "xlink:href" none false) = href
  by_cases htr : truthyO href = true
  case neg =>
    rw [if_pos htr]
  case pos =>
    rw [if_neg (fun hcon => hcon htr)]
    dsimp only
    split
    · rfl
    · next tAnc target _ =>
      have hsu2 : ∀ su2 : RState, su2.svg = sB.svg →
          (if ¬ (recurse tAnc target su2).2 = true
           then ((recurse tAnc target su2).1, false)
           else (pop_context (recurse tAnc target su2).1, true)).1.svg
            = sB.svg := by
        intro su2 hsvg
        by_cases hpu : (recurse tAnc target su2).2 = true
        · rw [if_neg (fun hcon => hcon hpu)]
          show (pop_context (recurse tAnc target su2).1).svg = sB.svg
          rw [pop_context_svg, IH, hsvg]
        · rw [if_pos hpu]
          show (recurse tAnc target su2).1.svg = sB.svg
          rw [IH, hsvg]
      split
      · exact hsu2 _ (by rw [setTopCtx_svg, push_context_svg])
      · exact hsu2 _ (by rw [push_context_svg])

theorem rnDispatch_svg (ext : RenderExt) (recurse : RenderRec)
    (anc : List AttrsD) (node : NodeT) (IH : SvgOk recurse) (sB : RState) :
    (rnDispatch ext recurse anc node sB).1.svg = sB.svg := by
  rw [rnDispatch]
  by_cases hg : node.tag = "g"
  · rw [if_pos hg]
    by_cases hp : (node.children.foldl
        (fun p child => if p.2 then recurse (node.attrs :: anc) child p.1 else p)
        (push_context sB, true)).2 = true
    · rw [if_neg (fun hcon => hcon hp)]
      show (pop_context (setSecondCtx _ _)).svg = sB.svg
      rw [pop_context_svg, setSecondCtx_svg, foldChildren_svg recurse _ IH]
      exact push_context_svg sB
    · rw [if_pos hp]
      show (node.children.foldl
        (fun p child => if p.2 then recurse (node.attrs :: anc) child p.1 else p)
        (push_context sB, true)).1.svg = sB.svg
      rw [foldChildren_svg recurse _ IH]
      exact push_context_svg sB
  · rw [if_neg hg]
    by_cases h2 : node.tag = "rect"
    · rw [if_pos h2]
    · rw [if_neg h2]
      by_cases h3 : node.tag = "circle"
      · rw [if_pos h3]
      · rw [if_neg h3]
        by_cases h4 : node.tag = "ellipse"
        · rw [if_pos h4]
        · rw [if_neg h4]
          by_cases h5 : node.tag = "line"
          · rw [if_pos h5]
          · rw [if_neg h5]
            by_cases h6 : node.tag = "polyline"
            · rw [if_pos h6]
            · rw [if_neg h6]
              by_cases h7 : node.tag = "path"
              · rw [if_pos h7]
              · rw [if_neg h7]
                by_cases h8 : node.tag = "use"
                · rw [if_pos h8]
                  exact rnUse_svg ext recurse ⟨node.attrs, anc⟩ IH sB
                · rw [if_neg h8]

theorem rnAfterChildren_svg (pE : RState × Bool) :
    (rnAfterChildren pE).1.svg = pE.1.svg := by
  rw [rnAfterChildren]
  by_cases hp : pE.2 = true
  · rw [if_neg (fun hcon => hcon hp)]
  · rw [if_pos hp]

theorem rnFinish_svg (ext : RenderExt) (recurse : RenderRec) (anc : List AttrsD)
    (node : NodeT) (IH : SvgOk recurse) (sD : RState) :
    (rnFinish ext recurse anc node sD).1.svg = sD.svg := by
  rw [rnFinish]
  by_cases hgtag : node.tag ≠ "g"
  · rw [if_pos hgtag, rnAfterChildren_svg, foldChildren_svg recurse _ IH]
  · rw [if_neg hgtag, rnAfterChildren_svg]

theorem rnTail_svg (ext : RenderExt) (recurse : RenderRec) (anc : List AttrsD)
    (node : NodeT) (pushedT : Bool) (IH : SvgOk recurse) (sB : RState) :
    (rnTail ext recurse anc node pushedT sB).1.svg = sB.svg := by
  rw [rnTail]
  by_cases hdok : (rnDispatch ext recurse anc node sB).2 = true
  · rw [if_neg (fun hcon => hcon hdok)]
    have hsD : (if pushedT then pop_context (rnDispatch ext recurse anc node sB).1
        else (rnDispatch ext recurse anc node sB).1).svg = sB.svg := by
      cases hpt : pushedT with
      | false =>
        simp only [Bool.false_eq_true, if_false]
        exact rnDispatch_svg ext recurse anc node IH sB
      | true =>
        simp only [if_true]
        rw [pop_context_svg]
        exact rnDispatch_svg ext recurse anc node IH sB
    rw [rnFinish_svg ext recurse anc node IH, hsD]
  · rw [if_pos hdok]
    exact rnDispatch_svg ext recurse anc node IH sB

theorem rnAfterTri_svg (ext : RenderExt) (recurse : RenderRec)
    (anc : List AttrsD) (node : NodeT) (IH : SvgOk recurse)
    (tri : RState × Bool) :
    (rnAfterTri ext recurse anc node tri).1.svg = tri.1.svg := by
  rw [rnAfterTri]
  by_cases htriok : tri.2 = true
  · rw [if_neg (fun hcon => hcon htriok)]
    rw [rnTail_svg ext recurse anc node _ IH, rnClip_svg]
  · rw [if_pos htriok]

theorem rnMid_svg (ext : RenderExt) (recurse : RenderRec) (anc : List AttrsD)
    (node : NodeT) (IH : SvgOk recurse) (sB : RState) :
    (rnMid ext recurse anc node sB).1.svg = sB.svg := by
  rw [rnMid, rnAfterTri_svg ext recurse anc node IH]
  cases hpT : ((get_attribute ⟨node.attrs, anc⟩ "transform" none false).isSome
      && !(node.tag == "g")) with
  | true =>
    rw [if_pos (rfl : true = true)]
    exact rnTransformNonG_svg ext.pm ⟨node.attrs, anc⟩ _ sB
  | false =>
    rw [if_neg (fun hcon : false = true => Bool.noConfusion hcon)]
    by_cases hht : (get_attribute ⟨node.attrs, anc⟩ "transform" none
        false).isSome = true
    · rw [if_pos hht]
      exact rnTransformG_svg ext.pm _ sB
    · rw [if_neg hht]

/-- The walk never changes the SVG state it reads from. -/
theorem render_node_svg (ext : RenderExt) (fuel : ℕ) :
    SvgOk (render_node ext fuel) := by
  induction fuel with
  | zero =>
    intro anc node s
    rw [render_node]
  | succ fuel IH =>
    intro anc node s
    rw [render_node]
    by_cases ha : (rnAttrs ⟨node.attrs, anc⟩ s).2 = true
    · rw [if_neg (fun hcon => hcon ha)]
      rw [rnMid_svg ext _ anc node (fun anc2 nd st => IH anc2 nd st),
        rnAttrs_svg]
    · rw [if_pos ha]
      exact rnAttrs_svg _ s

theorem renderer_render_svg (ext : RenderExt) (fuel : ℕ) (s : RState) :
    (renderer_render ext fuel s).1.svg = s.svg := by
  rw [renderer_render]
  split
  · rfl
  · exact render_node_svg ext fuel [] _ s

theorem pyInt_intCast (n : ℤ) : pyInt (n : ℚ) = n := by
  rw [pyInt]
  split
  · exact Int.floor_intCast n
  · exact Int.ceil_intCast n

theorem cvt_fields (s : SvgVals) :
    (calculate_viewbox_transform s).tree = s.tree ∧
    (calculate_viewbox_transform s).viewport_width = s.viewport_width ∧
    (calculate_viewbox_transform s).viewport_height = s.viewport_height ∧
    (calculate_viewbox_transform s).viewbox = s.viewbox := by
  rw [calculate_viewbox_transform]
  split
  · exact ⟨rfl, rfl, rfl, rfl⟩
  · dsimp only
    split
    · exact ⟨rfl, rfl, rfl, rfl⟩
    · exact ⟨rfl, rfl, rfl, rfl⟩

/-- Renderer.__init__ written without lets, for rewriting. -/
theorem renderer_init_eq (st : SvgVals) (w? h? : Option ℤ) (bg : ℤ × ℤ × ℤ)
    (aa : Bool) :
    renderer_init st w? h? bg aa =
      { svg := if ((w?.getD (pyInt st.viewport_width) : ℤ) : ℚ)
              ≠ st.viewport_width
            ∨ ((h?.getD (pyInt st.viewport_height) : ℤ) : ℚ)
              ≠ st.viewport_height then
          calculate_viewbox_transform
            { st with
              viewport_width := ((w?.getD (pyInt st.viewport_width) : ℤ) : ℚ),
              viewport_height := ((h?.getD (pyInt st.viewport_height) : ℤ) : ℚ) }
        else st,
        width := w?.getD (pyInt st.viewport_width),
        height := h?.getD (pyInt st.viewport_height),
        anti_aliasing := aa,
        buffer := List.replicate (h?.getD (pyInt st.viewport_height)).toNat
          (List.replicate (w?.getD (pyInt st.viewport_width)).toNat
            (bg.1, bg.2.1, bg.2.2, (255 : ℤ))),
        stack := [defaultContext], previousStack := none } := rfl

theorem renderer_init_svg (st : SvgVals) (w? h? : Option ℤ) (bg : ℤ × ℤ × ℤ)
    (aa : Bool) :
    (renderer_init st w? h? bg aa).svg
      = if ((w?.getD (pyInt st.viewport_width) : ℤ) : ℚ) ≠ st.viewport_width
          ∨ ((h?.getD (pyInt st.viewport_height) : ℤ) : ℚ)
            ≠ st.viewport_height then
          calculate_viewbox_transform
            { st with
              viewport_width := ((w?.getD (pyInt st.viewport_width) : ℤ) : ℚ),
              viewport_height := ((h?.getD (pyInt st.viewport_height) : ℤ) : ℚ) }
        else st := rfl

/-- After construction the stored viewport always equals the integer
    output dimension (either the override was installed, or it was derived
    from the viewport and found equal). -/
theorem renderer_init_svg_wh (st : SvgVals) (w? h? : Option ℤ)
    (bg : ℤ × ℤ × ℤ) (aa : Bool) :
    (renderer_init st w? h? bg aa).svg.viewport_width
        = ((w?.getD (pyInt st.viewport_width) : ℤ) : ℚ) ∧
    (renderer_init st w? h? bg aa).svg.viewport_height
        = ((h?.getD (pyInt st.viewport_height) : ℤ) : ℚ) := by
  rw [renderer_init_svg]
  by_cases hc : ((w?.getD (pyInt st.viewport_width) : ℤ) : ℚ)
        ≠ st.viewport_width
    ∨ ((h?.getD (pyInt st.viewport_height) : ℤ) : ℚ) ≠ st.viewport_height
  · rw [if_pos hc]
    exact ⟨(cvt_fields _).2.1, (cvt_fields _).2.2.1⟩
  · rw [if_neg hc]
    push_neg at hc
    exact ⟨hc.1.symm, hc.2.symm⟩

theorem renderer_init_dim_idem (st : SvgVals) (w? h? : Option ℤ)
    (bg : ℤ × ℤ × ℤ) (aa : Bool) :
    w?.getD (pyInt (renderer_init st w? h? bg aa).svg.viewport_width)
        = w?.getD (pyInt st.viewport_width) ∧
    h?.getD (pyInt (renderer_init st w? h? bg aa).svg.viewport_height)
        = h?.getD (pyInt st.viewport_height) := by
  have h := renderer_init_svg_wh st w? h? bg aa
  constructor
  · cases w? with
    | some a => rfl
    | none =>
      rw [h.1]
      simp only [Option.getD_none]
      rw [pyInt_intCast]
  · cases h? with
    | some a => rfl
    | none =>
      rw [h.2]
      simp only [Option.getD_none]
      rw [pyInt_intCast]

/-- Re-constructing a renderer from the SVG state mutated by a previous
    construction yields the identical initial state: the write-back of the
    override dimensions is idempotent. -/
theorem renderer_init_idem (st : SvgVals) (w? h? : Option ℤ)
    (bg : ℤ × ℤ × ℤ) (aa : Bool) :
    renderer_init (renderer_init st w? h? bg aa).svg w? h? bg aa
      = renderer_init st w? h? bg aa := by
  have hd := renderer_init_dim_idem st w? h? bg aa
  have hwh := renderer_init_svg_wh st w? h? bg aa
  rw [renderer_init_eq ((renderer_init st w? h? bg aa).svg) w? h? bg aa]
  have hcond : ¬ (((w?.getD (pyInt
          (renderer_init st w? h? bg aa).svg.viewport_width) : ℤ) : ℚ)
        ≠ (renderer_init st w? h? bg aa).svg.viewport_width
      ∨ ((h?.getD (pyInt
          (renderer_init st w? h? bg aa).svg.viewport_height) : ℤ) : ℚ)
        ≠ (renderer_init st w? h? bg aa).svg.viewport_height) := by
    rw [hd.1, hd.2, hwh.1, hwh.2]
    simp
  rw [if_neg hcond, hd.1, hd.2]
  rfl

/-- C10: the renderer starts with exactly one context on the stack;
    _pop_context refuses to remove the last remaining element (on a stack
    of length at most one it is the identity) and never empties a
    non-empty stack; the node walk (covering _render_node and _render_use,
    at any fuel) keeps the stack non-empty and, whenever it completes
    without a raise, restores the exact stack length, every push being
    matched by a pop on the same path; and on a non-empty stack
    _get_current_context returns an actual element, the head. -/
theorem claim_C10_stack_invariant (st : SvgVals) (w? h? : Option ℤ)
    (bg : ℤ × ℤ × ℤ) (aa : Bool) (ext : RenderExt) (fuel : ℕ)
    (anc : List AttrsD) (node : NodeT) (s : RState) (hne : s.stack ≠ []) :
    (renderer_init st w? h? bg aa).stack = [defaultContext] ∧
    (s.stack.length ≤ 1 → pop_context s = s) ∧
    (pop_context s).stack ≠ [] ∧
    (render_node ext fuel anc node s).1.stack ≠ [] ∧
    ((render_node ext fuel anc node s).2 = true →
      (render_node ext fuel anc node s).1.stack.length = s.stack.length) ∧
    s.stack = get_current_context s :: s.stack.tail := by
  have hso := render_node_stackOk ext fuel anc node s hne
  refine ⟨rfl, ?_, pop_context_stack_ne s hne, hso.1, hso.2, ?_⟩
  · intro hle
    rw [pop_context, if_neg (by omega)]
  · cases hs : s.stack with
    | nil => exact absurd hs hne
    | cons c rest => simp [get_current_context, hs]

theorem claim_C10_witness :
    (renderer_init ⟨none, 20, 20, none, 1, 1, 0, 0⟩ none none (0, 0, 0)
        false).stack ≠ [] ∧
    ((renderer_init ⟨none, 20, 20, none, 1, 1, 0, 0⟩ none none (0, 0, 0)
        false).stack = [defaultContext] ∧
     ((renderer_init ⟨none, 20, 20, none, 1, 1, 0, 0⟩ none none (0, 0, 0)
        false).stack.length ≤ 1 →
       pop_context (renderer_init ⟨none, 20, 20, none, 1, 1, 0, 0⟩ none none
        (0, 0, 0) false)
        = renderer_init ⟨none, 20, 20, none, 1, 1, 0, 0⟩ none none (0, 0, 0)
        false) ∧
     (pop_context (renderer_init ⟨none, 20, 20, none, 1, 1, 0, 0⟩ none none
        (0, 0, 0) false)).stack ≠ [] ∧
     (render_node constExt 5 [] (.mk "g" [] [])
        (renderer_init ⟨none, 20, 20, none, 1, 1, 0, 0⟩ none none (0, 0, 0)
        false)).1.stack ≠ [] ∧
     ((render_node constExt 5 [] (.mk "g" [] [])
        (renderer_init ⟨none, 20, 20, none, 1, 1, 0, 0⟩ none none (0, 0, 0)
        false)).2 = true →
       (render_node constExt 5 [] (.mk "g" [] [])
        (renderer_init ⟨none, 20, 20, none, 1, 1, 0, 0⟩ none none (0, 0, 0)
        false)).1.stack.length
         = (renderer_init ⟨none, 20, 20, none, 1, 1, 0, 0⟩ none none (0, 0, 0)
        false).stack.length) ∧
     (renderer_init ⟨none, 20, 20, none, 1, 1, 0, 0⟩ none none (0, 0, 0)
        false).stack
       = get_current_context (renderer_init ⟨none, 20, 20, none, 1, 1, 0, 0⟩
          none none (0, 0, 0) false)
         :: (renderer_init ⟨none, 20, 20, none, 1, 1, 0, 0⟩ none none (0, 0, 0)
        false).stack.tail) :=
  ⟨by simp [renderer_init],
   claim_C10_stack_invariant ⟨none, 20, 20, none, 1, 1, 0, 0⟩ none none
     (0, 0, 0) false constExt 5 [] (.mk "g" [] []) _ (by simp [renderer_init])⟩

/-- C9: rendering is a pure function of its explicit inputs, and the one
    piece of shared state the construction does write (the override
    dimensions installed into the SVG state, with the recomputed viewBox
    transform) is written idempotently and never touched by the render
    pass itself; so constructing and rendering again from the SVG state
    left behind by a previous construct-and-render, with identical width,
    height, background color and anti-aliasing parameters, returns the
    identical result, in particular a byte-identical pixel buffer. -/
theorem claim_C9_render_deterministic (ext : RenderExt) (fuel : ℕ)
    (st : SvgVals) (w? h? : Option ℤ) (bg : ℤ × ℤ × ℤ) (aa : Bool) :
    (render_document ext fuel st w? h? bg aa).1.svg
      = (renderer_init st w? h? bg aa).svg ∧
    render_document ext fuel
        ((render_document ext fuel st w? h? bg aa).1.svg) w? h? bg aa
      = render_document ext fuel st w? h? bg aa ∧
    (render_document ext fuel
        ((render_document ext fuel st w? h? bg aa).1.svg) w? h? bg aa).1.buffer
      = (render_document ext fuel st w? h? bg aa).1.buffer := by
  have hsvg : (render_document ext fuel st w? h? bg aa).1.svg
      = (renderer_init st w? h? bg aa).svg := by
    rw [render_document, renderer_render_svg]
  have h2 : render_document ext fuel
      ((render_document ext fuel st w? h? bg aa).1.svg) w? h? bg aa
      = render_document ext fuel st w? h? bg aa := by
    rw [hsvg, render_document, render_document, renderer_init_idem]
  exact ⟨hsvg, h2, by rw [h2]⟩

end SvgSpec
